import Mathlib

/-!
Verification development for the monitor-ggal repository.

The algorithmic core is embedded shallowly: Python dictionaries become Lean
structures, floats become rationals (`ℚ`), `None` becomes `Option`, and the
in-place mutation of the prediction tracker becomes explicit state passing.
Python's `round(x, d)` rounds half to even; it is embedded as `roundTo`
below, built on `rhe` (round-half-even to an integer).
-/

namespace MonitorGGAL

/-- Round half to even (banker's rounding), the rounding mode of Python's
built-in `round`. -/
def rhe (q : ℚ) : ℤ :=
  if Int.fract q < 1/2 then ⌊q⌋
  else if (1:ℚ)/2 < Int.fract q then ⌊q⌋ + 1
  else if Even ⌊q⌋ then ⌊q⌋ else ⌊q⌋ + 1

/-- Python's `round(q, d)`: round to `d` decimal places, half to even. -/
def roundTo (d : ℕ) (q : ℚ) : ℚ := (rhe (q * (10:ℚ)^d) : ℚ) / (10:ℚ)^d

/-- Three-valued sign, used to state the spec's wording of directional
accuracy (`sign(predicted − current) == sign(actual − current)`). -/
def sgnQ (q : ℚ) : ℤ :=
  if q < 0 then -1 else if q = 0 then 0 else 1

/-- Minimum of a list of rationals, as Python's `min` on a nonempty list
(0 on the empty list, which no caller reaches). -/
def listMin : List ℚ → ℚ
  | [] => 0
  | x :: xs => xs.foldl min x

/-- Maximum of a list of rationals, as Python's `max` on a nonempty list. -/
def listMax : List ℚ → ℚ
  | [] => 0
  | x :: xs => xs.foldl max x

/-- Insert into a (sorted) list, keeping order; building block of `sortQ`. -/
def insertSorted (x : ℚ) : List ℚ → List ℚ
  | [] => [x]
  | y :: ys => if x ≤ y then x :: y :: ys else y :: insertSorted x ys

/-- Ascending sort of a list of rationals (insertion sort); embeds the
ascending sort inside `np.median`. -/
def sortQ (l : List ℚ) : List ℚ := l.foldr insertSorted []

/-- Arithmetic mean of a list of rationals (`np.mean`); callers only apply
it to nonempty lists. -/
def meanQ (l : List ℚ) : ℚ := l.sum / l.length

/-- The median as computed by `np.median`: sort ascending, take the middle
element (odd length) or the average of the two middle elements (even
length). -/
def medianQ (l : List ℚ) : ℚ :=
  if (sortQ l).length % 2 = 1 then (sortQ l).getD ((sortQ l).length / 2) 0
  else ((sortQ l).getD ((sortQ l).length / 2 - 1) 0 + (sortQ l).getD ((sortQ l).length / 2) 0) / 2

/-!
## PredictionTracker (src/prediction_tracker.py)

Timestamps are rationals counting seconds; `timedelta(minutes=h)` becomes
`60 * h` and the ±30-second tolerance becomes `30`. A prediction record
mirrors the dictionary built by `add_prediction` plus the fields written by
`validate_predictions`.
-/
/-- One sample of the price history, as read by `validate_predictions`
(only the `timestamp` and `price` keys are consumed). -/
structure HistSample where
  timestamp : ℚ
  price : ℚ
deriving DecidableEq, Repr

/-- A prediction record, mirroring the dictionary of `add_prediction`
(lines 38-51) together with the fields added on validation (lines
104-110). -/
structure PredRec where
  timestamp : ℚ
  current_price : ℚ
  predicted_price : ℚ
  horizon_minutes : ℚ
  velocity : ℚ
  uncertainty : ℚ
  confidence : String
  lower_bound : ℚ
  upper_bound : ℚ
  validated : Bool
  actual_price : Option ℚ
  error : Option ℚ
  error_pct : Option ℚ
  within_interval : Option Bool
  validation_time : Option ℚ
deriving DecidableEq, Repr

/-- State of a `PredictionTracker`: the two bounded FIFO buffers and their
shared capacity (`max_predictions`, default 100). -/
structure TrackerState where
  maxPredictions : ℕ
  predictions : List PredRec
  validated_predictions : List PredRec
deriving DecidableEq, Repr

/-- Append to a `deque(maxlen=m)`: appending all of `newItems` in order,
evicting from the front whenever the capacity is exceeded, leaves the last
`m` elements of the concatenation. -/
def dequeAppendAll (m : ℕ) (buf newItems : List PredRec) : List PredRec :=
  let all := buf ++ newItems
  all.drop (all.length - m)

/-- The record created by `add_prediction`: all validation fields unset. -/
def mkPredictionRecord (timestamp current_price predicted_price horizon_minutes
    velocity uncertainty : ℚ) (confidence : String) (lower_bound upper_bound : ℚ) :
    PredRec :=
  { timestamp := timestamp, current_price := current_price,
    predicted_price := predicted_price, horizon_minutes := horizon_minutes,
    velocity := velocity, uncertainty := uncertainty, confidence := confidence,
    lower_bound := lower_bound, upper_bound := upper_bound,
    validated := false, actual_price := none, error := none, error_pct := none,
    within_interval := none, validation_time := none }

/-- `add_prediction`: append the fresh record to the outstanding buffer
(FIFO eviction at capacity). -/
def add_prediction (st : TrackerState) (r : PredRec) : TrackerState :=
  { st with predictions := dequeAppendAll st.maxPredictions st.predictions [r] }

/-- One insertion into the Python dict keyed by timestamp (lines 72-78):
a repeated timestamp overwrites the stored price but keeps its original
position in iteration order. -/
def dictInsert (d : List (ℚ × ℚ)) (e : ℚ × ℚ) : List (ℚ × ℚ) :=
  if d.any (fun kv => kv.1 = e.1) then
    d.map (fun kv => if kv.1 = e.1 then (kv.1, e.2) else kv)
  else d ++ [e]

/-- Convert the history into the timestamp-keyed dict of lines 72-78. -/
def buildDict (hist : List HistSample) : List (ℚ × ℚ) :=
  hist.foldl (fun d s => dictInsert d (s.timestamp, s.price)) []

/-- `_find_closest_price` (lines 122-143): despite its name, the source
returns the price of the FIRST dict entry whose timestamp is within the
±30-second tolerance of the target, in dict iteration order. -/
def findClosestPrice (target : ℚ) (dict : List (ℚ × ℚ)) : Option ℚ :=
  (dict.find? (fun kv => |kv.1 - target| ≤ 30)).map (fun kv => kv.2)

/-- Target validation time of a record: prediction time plus the horizon
(`timedelta(minutes=horizon_minutes)`). -/
def targetTime (p : PredRec) : ℚ := p.timestamp + 60 * p.horizon_minutes

/-- The per-record body of the validation loop (lines 81-114). A record is
left untouched when already validated, not yet due, or unmatched; otherwise
its validation fields are filled in. -/
def processRecord (hdict : List (ℚ × ℚ)) (now : ℚ) (p : PredRec) : PredRec :=
  if p.validated then p
  else if now < targetTime p then p
  else
    match findClosestPrice (targetTime p) hdict with
    | none => p
    | some actual =>
      { p with
        validated := true,
        actual_price := some actual,
        error := some (actual - p.predicted_price),
        error_pct := some ((actual - p.predicted_price) / p.current_price * 100),
        within_interval := some (decide (p.lower_bound ≤ actual ∧ actual ≤ p.upper_bound)),
        validation_time := some now }

/-- Whether the loop body validates record `p` in this call. -/
def newlyValidatedB (hdict : List (ℚ × ℚ)) (now : ℚ) (p : PredRec) : Bool :=
  !p.validated && !(decide (now < targetTime p)) &&
    (findClosestPrice (targetTime p) hdict).isSome

/-- `validate_predictions` (lines 55-120). The Python loop mutates each due
record in place and appends a copy to the validated deque as it goes; since
the processing of one record never depends on another, this equals mapping
`processRecord` over the outstanding buffer and appending the newly
validated records, in buffer order, to the validated deque. Returns the
count of newly validated records paired with the new state. -/
def validate_predictions (st : TrackerState) (hist : List HistSample) (now : ℚ) :
    ℕ × TrackerState :=
  if hist.isEmpty then (0, st)
  else
    let hdict := buildDict hist
    let newRecs := (st.predictions.filter (newlyValidatedB hdict now)).map
      (processRecord hdict now)
    (newRecs.length,
      { st with
        predictions := st.predictions.map (processRecord hdict now),
        validated_predictions :=
          dequeAppendAll st.maxPredictions st.validated_predictions newRecs })

/-- Number of validated records in a buffer. -/
def countValidated (l : List PredRec) : ℕ := l.countP (fun p => p.validated)

/-- Aggregate metric values of `get_accuracy_metrics` (lines 195-207). The
source rounds each value for display (half-to-even); `rmse_sq` holds the
pre-rounding SQUARE of the RMSE: the source's `rmse` is its square root, a
quantity that is not rational, and the square determines it. -/
structure MetricValues where
  mae : ℚ
  rmse_sq : ℚ
  mape : ℚ
  directional_accuracy : ℚ
  interval_coverage : ℚ
  recent_mape : ℚ
deriving DecidableEq, Repr

/-- Return shape of `get_accuracy_metrics`; `metrics` and `summary` are
absent (`none`) in the two sentinel branches. -/
structure AccuracyReport where
  total_predictions : ℕ
  validated_predictions : ℕ
  metrics : Option MetricValues
  summary : Option String
deriving DecidableEq, Repr

/-- The directional count of lines 177-184: the source buckets a price as
`'up'` when strictly greater than the record's current price and `'down'`
otherwise, and compares buckets. It reads `actual_price` whenever `error`
is set; on tracker-produced records the two are always set together, so
the `(some, none)` case (a crash in the source) is counted as false. -/
def correctDirectionCount (l : List PredRec) : ℕ :=
  l.countP (fun p =>
    match p.error, p.actual_price with
    | some _, some a =>
      decide ((p.predicted_price > p.current_price) ↔ (a > p.current_price))
    | _, _ => false)

/-- The spec's wording of the directional-accuracy count:
`sign(predicted − current) == sign(actual − current)`, with a three-valued
sign. Stated for comparison with the source's `correctDirectionCount`. -/
def signCorrectCount (l : List PredRec) : ℕ :=
  l.countP (fun p =>
    match p.actual_price with
    | some a =>
      decide (sgnQ (p.predicted_price - p.current_price) = sgnQ (a - p.current_price))
    | none => false)

/-- `_generate_summary` (lines 209-218); the `coverage` argument is passed
by the source but never read. -/
def generateSummary (dir_acc mape _coverage : ℚ) : String :=
  if dir_acc ≥ 70 ∧ mape < 1 then "Excellent: High accuracy, low error"
  else if dir_acc ≥ 60 ∧ mape < 3/2 then "Good: Reliable predictions"
  else if dir_acc ≥ 50 ∧ mape < 5/2 then "Fair: Moderate accuracy"
  else "Poor: Needs parameter tuning"

/-- `get_accuracy_metrics` (lines 145-207). Note the first sentinel reports
`total_predictions = 0` while the second reports the outstanding-buffer
length, exactly as in the source. -/
def get_accuracy_metrics (st : TrackerState) : AccuracyReport :=
  if st.validated_predictions.isEmpty then
    { total_predictions := 0, validated_predictions := 0, metrics := none,
      summary := none }
  else
    let validated_list := st.validated_predictions
    let errors := validated_list.filterMap (fun p => p.error)
    let error_pcts := validated_list.filterMap (fun p => p.error_pct)
    let within_intervals := validated_list.filterMap (fun p => p.within_interval)
    if errors.isEmpty then
      { total_predictions := st.predictions.length, validated_predictions := 0,
        metrics := none, summary := none }
    else
      let mae := meanQ (errors.map (fun e => |e|))
      let rmse_sq := meanQ (errors.map (fun e => e ^ 2))
      let mape := meanQ (error_pcts.map (fun e => |e|))
      let directional_accuracy :=
        ((correctDirectionCount validated_list : ℚ) / errors.length) * 100
      let interval_coverage :=
        if within_intervals.isEmpty then 0
        else ((within_intervals.countP id : ℚ) / within_intervals.length) * 100
      let recent_errors :=
        if error_pcts.length ≥ 10 then error_pcts.drop (error_pcts.length - 10)
        else error_pcts
      let recent_mape :=
        if recent_errors.isEmpty then 0 else meanQ (recent_errors.map (fun e => |e|))
      { total_predictions := st.predictions.length,
        validated_predictions := validated_list.length,
        metrics := some
          { mae := roundTo 3 mae, rmse_sq := rmse_sq, mape := roundTo 2 mape,
            directional_accuracy := roundTo 1 directional_accuracy,
            interval_coverage := roundTo 1 interval_coverage,
            recent_mape := roundTo 2 recent_mape },
        summary := some (generateSummary directional_accuracy mape interval_coverage) }

/-- Top-level keys of the dictionary returned by `get_accuracy_metrics`
(lines 195-207 of src/prediction_tracker.py). -/
def accuracyMetricsTopKeys : List String :=
  ["total_predictions", "validated_predictions", "metrics", "summary"]

/-- Keys of the inner `metrics` dictionary (lines 198-205). -/
def accuracyMetricsInnerKeys : List String :=
  ["mae", "rmse", "mape", "directional_accuracy", "interval_coverage", "recent_mape"]

/-- Top-level keys of the tracker's metrics dictionary that `cmd_status`
in src/cli.py (lines 213-239) reads once at least 3 validated predictions
exist. -/
def cmdStatusTopKeys : List String :=
  ["validated_predictions", "effectiveness_index", "rating", "metrics"]

/-- Inner `metrics` keys read by `cmd_status` (lines 236-247 of cli.py). -/
def cmdStatusInnerKeys : List String :=
  ["correct_direction_count", "total_direction_count", "directional_accuracy",
   "mape", "interval_coverage"]

/-!
## GGALForecaster (src/forecaster.py)

Histories are lists of prices (the source only ever reads the `price` key
of each history entry). Python's negative indexing `prices[-k]` becomes
`negIdx prices k` and slicing `prices[-n:]` becomes `takeLast n prices`.
-/
/-- `prices[-1]` on a nonempty array. -/
def lastD (l : List ℚ) : ℚ := l.getD (l.length - 1) 0

/-- `prices[-k]` for `1 ≤ k ≤ len(prices)`. -/
def negIdx (l : List ℚ) (k : ℕ) : ℚ := l.getD (l.length - k) 0

/-- `prices[-n:]`. -/
def takeLast (n : ℕ) (l : List ℚ) : List ℚ := l.drop (l.length - n)

/-- `np.diff`. -/
def diffs (l : List ℚ) : List ℚ := (l.zip (l.drop 1)).map (fun ab => ab.2 - ab.1)

/-- Population variance, the square of `np.std`. The source only ever
compares the std against nonnegative thresholds, which is equivalent to
comparing this square against the squared thresholds. -/
def varianceQ (l : List ℚ) : ℚ := meanQ (l.map (fun x => (x - meanQ l) ^ 2))

/-- `_extract_prices` (lines 14-18): `None` below `min_samples`, else the
price array. -/
def extract_prices (min_samples : ℕ) (historial : List ℚ) : Option (List ℚ) :=
  if historial.length < min_samples then none else some historial

/-- Output of one GGAL forecasting method. The per-model metadata fields
(`trend`, `trend_strength`, `r_squared`, `slope`, `momentum`, `mean_price`,
`z_score`, `signal`) are omitted: no claim mentions them, and the z-score
needs a square root. -/
structure MethodForecast where
  method : String
  prediction : ℚ
  current_price : ℚ
  horizon_minutes : ℚ
  confidence : String
deriving DecidableEq, Repr

/-- `predict_simple_ma` (lines 76-105). -/
def predict_simple_ma (min_samples : ℕ) (historial : List ℚ) (horizon_minutes : ℚ) :
    Option MethodForecast :=
  match extract_prices min_samples historial with
  | none => none
  | some prices =>
    let short_window := min 5 prices.length
    let long_window := min 10 prices.length
    let short_ma := meanQ (takeLast short_window prices)
    let long_ma := meanQ (takeLast long_window prices)
    let trend := short_ma - long_ma
    some { method := "simple_ma", prediction := roundTo 2 (lastD prices + trend),
           current_price := roundTo 2 (lastD prices),
           horizon_minutes := horizon_minutes, confidence := "low" }

/-- `predict_exponential_smoothing` (lines 107-135), default `alpha=0.3`;
the trend update reads the freshly updated level, as in the source. -/
def predict_exponential_smoothing (min_samples : ℕ) (historial : List ℚ)
    (horizon_minutes alpha : ℚ) : Option MethodForecast :=
  match extract_prices min_samples historial with
  | none => none
  | some prices =>
    let lt := (prices.drop 1).foldl
      (fun (s : ℚ × ℚ) price =>
        let level := alpha * price + (1 - alpha) * (s.1 + s.2)
        (level, alpha * (level - s.1) + (1 - alpha) * s.2))
      (prices.headD 0, 0)
    some { method := "exponential_smoothing",
           prediction := roundTo 2 (lt.1 + lt.2 * horizon_minutes),
           current_price := roundTo 2 (lastD prices),
           horizon_minutes := horizon_minutes, confidence := "medium" }

/-- `predict_linear_regression` (lines 137-185); the manual least-squares
fit over the last `min(20, len)` prices, with the division-by-zero guards
of the source. -/
def predict_linear_regression (min_samples : ℕ) (historial : List ℚ)
    (horizon_minutes : ℚ) : Option MethodForecast :=
  match extract_prices min_samples historial with
  | none => none
  | some prices =>
    let window := min 20 prices.length
    let recent := takeLast window prices
    let xs := (List.range recent.length).map (fun i => (i : ℚ))
    let x_mean := meanQ xs
    let y_mean := meanQ recent
    let numerator := ((xs.zip recent).map (fun xy => (xy.1 - x_mean) * (xy.2 - y_mean))).sum
    let denominator := (xs.map (fun x => (x - x_mean) ^ 2)).sum
    let slope := if denominator ≠ 0 then numerator / denominator else 0
    let intercept := y_mean - slope * x_mean
    let future_time := (recent.length : ℚ) + horizon_minutes
    let prediction := slope * future_time + intercept
    let ss_res := ((recent.zip (xs.map (fun x => slope * x + intercept))).map
      (fun ab => (ab.1 - ab.2) ^ 2)).sum
    let ss_tot := (recent.map (fun y => (y - y_mean) ^ 2)).sum
    let r_squared : ℚ := if ss_tot ≠ 0 then 1 - ss_res / ss_tot else 0
    let confidence :=
      if r_squared > 7/10 then "high" else if r_squared > 2/5 then "medium" else "low"
    some { method := "linear_regression", prediction := roundTo 2 prediction,
           current_price := roundTo 2 (lastD prices),
           horizon_minutes := horizon_minutes, confidence := confidence }

/-- `predict_momentum_based` (lines 187-214). -/
def predict_momentum_based (min_samples : ℕ) (historial : List ℚ)
    (horizon_minutes : ℚ) : Option MethodForecast :=
  match extract_prices min_samples historial with
  | none => none
  | some prices =>
    let short_momentum := lastD prices - negIdx prices (min 3 prices.length)
    let med_momentum := lastD prices - negIdx prices (min 5 prices.length)
    let long_momentum := lastD prices - negIdx prices (min 10 prices.length)
    let avg_momentum := short_momentum * (1/2) + med_momentum * (3/10) + long_momentum * (1/5)
    some { method := "momentum",
           prediction := roundTo 2 (lastD prices + avg_momentum * (horizon_minutes / 5)),
           current_price := roundTo 2 (lastD prices),
           horizon_minutes := horizon_minutes, confidence := "medium" }

/-- `predict_mean_reversion` (lines 216-249); only the 30% reversion toward
the recent-window mean feeds the prediction (the z-score is metadata). -/
def predict_mean_reversion (min_samples : ℕ) (historial : List ℚ)
    (horizon_minutes : ℚ) : Option MethodForecast :=
  match extract_prices min_samples historial with
  | none => none
  | some prices =>
    let window := min 20 prices.length
    let mean_price := meanQ (takeLast window prices)
    let current_price := lastD prices
    let reversion_strength : ℚ := 3/10
    some { method := "mean_reversion",
           prediction := roundTo 2 (current_price + (mean_price - current_price) * reversion_strength),
           current_price := roundTo 2 current_price,
           horizon_minutes := horizon_minutes, confidence := "medium" }

/-- `_exponential_moving_average` (lines 49-55). -/
def exponential_moving_average (prices : List ℚ) (window : ℕ) : ℚ :=
  let alpha := 2 / ((window : ℚ) + 1)
  (prices.drop 1).foldl (fun ema price => alpha * price + (1 - alpha) * ema)
    (prices.headD 0)

/-- `_calculate_rsi` (lines 57-74). -/
def calculate_rsi (prices : List ℚ) (period : ℕ) : ℚ :=
  let deltas := diffs prices
  let gains := deltas.map (fun d => if d < 0 then 0 else d)
  let losses := deltas.map (fun d => if d > 0 then 0 else |d|)
  let avg_gain := meanQ (takeLast period gains)
  let avg_loss := meanQ (takeLast period losses)
  if avg_loss = 0 then 100
  else 100 - 100 / (1 + avg_gain / avg_loss)

/-- Technical indicators (lines 24-47); `volatility` is omitted (it takes
log returns, is irrational, and no claim or downstream reader consumes
it). -/
structure Indicators where
  sma : Option ℚ
  ema : Option ℚ
  momentum : Option ℚ
  roc : Option ℚ
  rsi : Option ℚ
deriving DecidableEq, Repr

/-- `_calculate_technical_indicators` (lines 24-47), window 5. -/
def calculate_technical_indicators (prices : List ℚ) (window : ℕ) : Indicators :=
  { sma := if window ≤ prices.length then some (meanQ (takeLast window prices)) else none,
    ema := if window ≤ prices.length then some (exponential_moving_average prices window) else none,
    momentum := if window ≤ prices.length then some (lastD prices - negIdx prices window) else none,
    roc := if window ≤ prices.length then
      some ((lastD prices - negIdx prices window) / negIdx prices window * 100) else none,
    rsi := if 14 ≤ prices.length then some (calculate_rsi prices 14) else none }

/-- Output of `GGALForecaster.ensemble_forecast` (lines 294-307);
`spread_sq` is the square of the reported `prediction_spread`
(`np.std(predictions)`), which determines it. -/
structure EnsembleOut where
  prediction : ℚ
  current_price : ℚ
  horizon_minutes : ℚ
  confidence : String
  spread_sq : ℚ
  models_used : List String
  num_models : ℕ
  min_prediction : ℚ
  max_prediction : ℚ
  indicators : Indicators
deriving DecidableEq, Repr

/-- `ensemble_forecast` (lines 251-307): run the five models, take the
median of the collected point predictions, derive confidence from the
cross-model spread (std < 0.1 high, < 0.3 medium, else low — compared here
through the squares). In this embedding none of the five models can raise,
so the `try/except` of the source never fires. -/
def ensemble_forecast (min_samples : ℕ) (historial : List ℚ) (horizon_minutes : ℚ) :
    Option EnsembleOut :=
  match extract_prices min_samples historial with
  | none => none
  | some prices =>
    let results := [predict_simple_ma min_samples historial horizon_minutes,
                    predict_exponential_smoothing min_samples historial horizon_minutes (3/10),
                    predict_linear_regression min_samples historial horizon_minutes,
                    predict_momentum_based min_samples historial horizon_minutes,
                    predict_mean_reversion min_samples historial horizon_minutes]
    let predictions := results.filterMap (fun r => r.map (fun f => f.prediction))
    let methods_used := results.filterMap (fun r => r.map (fun f => f.method))
    if predictions.isEmpty then none
    else
      let spread_sq := varianceQ predictions
      some { prediction := roundTo 2 (medianQ predictions),
             current_price := roundTo 2 (lastD prices),
             horizon_minutes := horizon_minutes,
             confidence := if spread_sq < 1/100 then "high"
               else if spread_sq < 9/100 then "medium" else "low",
             spread_sq := spread_sq,
             models_used := methods_used,
             num_models := predictions.length,
             min_prediction := roundTo 2 (listMin predictions),
             max_prediction := roundTo 2 (listMax predictions),
             indicators := calculate_technical_indicators prices 5 }

/-- The decision chain of `GGALForecaster.generate_trading_signal` (lines
342-370): ±0.5% thresholds on the forecast change, then an RSI override,
then a momentum veto. The confidence category plays no role here. -/
def ggalSignalCore (price_change_pct : ℚ) (rsi momentum : Option ℚ) : String :=
  let s1 := if price_change_pct > 1/2 then "BUY"
    else if price_change_pct < -(1/2) then "SELL" else "HOLD"
  let s2 := match rsi with
    | some r =>
      if r < 30 then (if s1 ≠ "SELL" then "BUY" else s1)
      else if r > 70 then (if s1 ≠ "BUY" then "SELL" else s1)
      else s1
    | none => s1
  match momentum with
  | some m =>
    if s2 = "BUY" ∧ m < 0 then "HOLD"
    else if s2 = "SELL" ∧ m > 0 then "HOLD"
    else s2
  | none => s2

/-- Return value of `GGALForecaster.generate_trading_signal`; the
insufficient-data and forecast-unavailable branches carry no numeric
fields. The `reason` text and wall-clock timestamp are omitted. -/
structure GGALSignal where
  signal : String
  confidence : String
  price_change_forecast : Option ℚ
  current_price : Option ℚ
  predicted_price : Option ℚ
deriving DecidableEq, Repr

/-- `generate_trading_signal` of GGALForecaster (lines 321-380). Note that
with insufficient data it returns a HOLD placeholder dictionary, not
`None`. -/
def ggalGenerateTradingSignal (min_samples : ℕ) (historial : List ℚ) : GGALSignal :=
  match extract_prices min_samples historial with
  | none =>
    { signal := "HOLD", confidence := "low", price_change_forecast := none,
      current_price := none, predicted_price := none }
  | some prices =>
    if prices.length < 15 then
      { signal := "HOLD", confidence := "low", price_change_forecast := none,
        current_price := none, predicted_price := none }
    else
      match ensemble_forecast min_samples historial 5 with
      | none =>
        { signal := "HOLD", confidence := "low", price_change_forecast := none,
          current_price := none, predicted_price := none }
      | some forecast =>
        let price_change_pct :=
          (forecast.prediction - forecast.current_price) / forecast.current_price * 100
        { signal := ggalSignalCore price_change_pct forecast.indicators.rsi
            forecast.indicators.momentum,
          confidence := forecast.confidence,
          price_change_forecast := some (roundTo 2 price_change_pct),
          current_price := some forecast.current_price,
          predicted_price := some forecast.prediction }

/-!
## EnsembleForecaster (src/ensemble_forecaster.py)

The two component models are the Kalman-backed forecaster (absent from the
src snapshot; only this combiner, the tests and the CLI reference it) and
the pmdarima Auto-ARIMA model (an external library call). Both are
abstracted as their optional forecast results; the combination and
selection logic of `EnsembleForecaster.forecast` is embedded from the
source.
-/
/-- The common numeric core of a forecast dictionary (Kalman, Auto-ARIMA or
ensemble); model metadata (`model_type`, `components`, ARIMA order,
wall-clock timestamp) is omitted. -/
structure Forecast where
  prediction : ℚ
  current_price : ℚ
  price_change : ℚ
  price_change_pct : ℚ
  horizon_minutes : ℚ
  velocity : ℚ
  trend : String
  lower_bound : ℚ
  upper_bound : ℚ
  confidence : String
deriving DecidableEq, Repr

/-- The numeric confidence map `{'high': 3, 'medium': 2, 'low': 1}` with
`.get(…, 2)` defaulting, as in lines 84-88. -/
def confidenceScore (c : String) : ℚ :=
  if c = "high" then 3 else if c = "medium" then 2 else if c = "low" then 1 else 2

/-- The weighted combination of two component forecasts (lines 63-121). -/
def combineForecasts (kalman_weight automl_weight horizon_minutes : ℚ)
    (k a : Forecast) : Forecast :=
  let ensemble_price := k.prediction * kalman_weight + a.prediction * automl_weight
  let current_price := k.current_price
  let change := ensemble_price - current_price
  let avg_confidence := confidenceScore k.confidence * kalman_weight +
    confidenceScore a.confidence * automl_weight
  { prediction := roundTo 2 ensemble_price,
    current_price := roundTo 2 current_price,
    price_change := roundTo 2 change,
    price_change_pct := roundTo 2 (change / current_price * 100),
    horizon_minutes := horizon_minutes,
    velocity := roundTo 4 (change / horizon_minutes),
    trend := if change > 0 then "up" else if change < 0 then "down" else "flat",
    lower_bound := roundTo 2 (k.lower_bound * kalman_weight + a.lower_bound * automl_weight),
    upper_bound := roundTo 2 (k.upper_bound * kalman_weight + a.upper_bound * automl_weight),
    confidence := if avg_confidence ≥ 5/2 then "high"
      else if avg_confidence ≥ 3/2 then "medium" else "low" }

/-- `EnsembleForecaster.forecast` (lines 34-61): `n` is `len(historial)`,
`kalmanF` and `autoF` the results of the two component models on that
history. Below `min_samples` (default 30) the combiner falls back to the
Kalman model whenever `n ≥ 10` (the Kalman model's own threshold), i.e. it
returns `kalmanF`; with both components available their forecasts are
combined, with exactly one available that one is returned unmodified, and
with none the result is `None`. -/
def ensembleForecast (min_samples n : ℕ) (kalmanF autoF : Option Forecast)
    (kalman_weight automl_weight horizon_minutes : ℚ) : Option Forecast :=
  if n < min_samples then (if 10 ≤ n then kalmanF else none)
  else
    match kalmanF, autoF with
    | none, some a => some a
    | some k, none => some k
    | none, none => none
    | some k, some a => some (combineForecasts kalman_weight automl_weight horizon_minutes k a)

/-- The action selection shared verbatim by
`EnsembleForecaster.generate_trading_signal` (ensemble_forecaster.py lines
174-182) and `AutoMLForecaster.generate_trading_signal`
(automl_forecaster.py lines 166-174): BUY above +0.3% with medium/high
confidence, SELL below −0.3% with medium/high confidence, else HOLD. -/
def signalAction (price_change_pct : ℚ) (confidence : String) : String :=
  if price_change_pct > 3/10 ∧ (confidence = "high" ∨ confidence = "medium") then "BUY"
  else if price_change_pct < -(3/10) ∧ (confidence = "high" ∨ confidence = "medium") then "SELL"
  else "HOLD"

/-- The 0-100 signal strength shared by the ensemble and Auto-ARIMA signal
generators: change magnitude capped at 50, confidence bonus 30/20/10, low-
uncertainty bonus capped at 20; Python's `int()` truncates the nonnegative
sum, i.e. takes its floor. -/
def signalStrength (price_change_pct uncertainty : ℚ) (confidence : String) : ℤ :=
  let price_magnitude := min (|price_change_pct| * 10) 50
  let confidence_score : ℚ :=
    if confidence = "high" then 30 else if confidence = "medium" then 20 else 10
  let uncertainty_score := max 0 (20 - uncertainty * 10)
  ⌊price_magnitude + confidence_score + uncertainty_score⌋

/-- `update_weights` (lines 197-208): proportional reweighting by the two
effectiveness indices, a no-op unless their sum is positive. -/
def update_weights (kalman_weight automl_weight kalman_eff automl_eff : ℚ) : ℚ × ℚ :=
  if kalman_eff + automl_eff > 0 then
    (kalman_eff / (kalman_eff + automl_eff), automl_eff / (kalman_eff + automl_eff))
  else (kalman_weight, automl_weight)

/-- `AutoMLForecaster.forecast` (automl_forecaster.py lines 34-112): the
insufficient-data guard of lines 45-46 is in src; the body — pmdarima's
`auto_arima` training and prediction, an external library call — is
abstracted as `modelResult` (also `None` when training or prediction
fails). -/
def automlForecast (min_samples n : ℕ) (modelResult : Option Forecast) :
    Option Forecast :=
  if n < min_samples then none else modelResult

/-- The signal dictionary built by `AutoMLForecaster.generate_trading_signal`
(lines 144-187) and `EnsembleForecaster.generate_trading_signal` (lines
156-195) from a forecast: action by `signalAction`, strength by
`signalStrength` with uncertainty `(upper − lower) / 4`. The `reason` text
and model metadata are omitted. -/
structure ThresholdSignal where
  signal : String
  signal_strength : ℤ
  confidence : String
  price_change_forecast : ℚ
  current_price : ℚ
  predicted_price : ℚ
deriving DecidableEq, Repr

/-- Shared signal construction of the two threshold-based generators. -/
def buildThresholdSignal (f : Forecast) : ThresholdSignal :=
  { signal := signalAction f.price_change_pct f.confidence,
    signal_strength := signalStrength f.price_change_pct
      ((f.upper_bound - f.lower_bound) / 4) f.confidence,
    confidence := f.confidence,
    price_change_forecast := roundTo 2 f.price_change_pct,
    current_price := f.current_price,
    predicted_price := f.prediction }

/-- `AutoMLForecaster.generate_trading_signal` (lines 130-187): `None`
below `min_samples`, `None` when the forecast is `None` (the forecast
result again abstracted as `forecastResult`), else the threshold signal. -/
def automlGenerateTradingSignal (min_samples n : ℕ)
    (forecastResult : Option Forecast) : Option ThresholdSignal :=
  if n < min_samples then none
  else
    match forecastResult with
    | none => none
    | some f => some (buildThresholdSignal f)

/-- `EnsembleForecaster.generate_trading_signal` (lines 139-195): below
`min_samples` (default 30) it falls back to the Kalman model's signal —
that generator is absent from src and abstracted as `kalmanSig` — when the
history has at least 15 samples and returns `None` otherwise; with enough
samples it returns `None` when the ensemble forecast (`forecastResult`) is
`None` and the threshold signal otherwise. -/
def ensembleGenerateTradingSignal (min_samples n : ℕ)
    (kalmanSig : Option ThresholdSignal) (forecastResult : Option Forecast) :
    Option ThresholdSignal :=
  if n < min_samples then (if 15 ≤ n then kalmanSig else none)
  else
    match forecastResult with
    | none => none
    | some f => some (buildThresholdSignal f)

/-!
## LinearStateEstimator and effectiveness index (modelled from the spec)

The src snapshot does not contain the `KalmanFilter` class (test_app.py
imports it from forecaster.py and verify_deployment.py requires it there)
nor the effectiveness-index computation (cli.py reads it from the
tracker's metrics). Both are modelled from spec §4.1 and §4.4.
-/
/-- Modelled from the spec: the missing `KalmanFilter` estimator state of
forecaster.py — a two-dimensional (price, velocity) belief with a 2×2
covariance, uninitialized until the first measurement (spec §4.1;
test_app.py `TestKalmanFilter` fixes the field names `initialized` and
`x`). -/
structure KalmanFilter where
  initialized : Bool
  x0 : ℚ
  x1 : ℚ
  p00 : ℚ
  p01 : ℚ
  p10 : ℚ
  p11 : ℚ
deriving DecidableEq, Repr

/-- Process-noise diagonal `Q` ("diagonal, small", spec §4.1). -/
def kalmanQ : ℚ := 1/100

/-- Scalar measurement noise `R` (spec §4.1). -/
def kalmanR : ℚ := 1/10

/-- Fresh estimator: uninitialized, zero state (test_app.py lines 27-31). -/
def KalmanFilter.fresh : KalmanFilter :=
  { initialized := false, x0 := 0, x1 := 0, p00 := 1000, p01 := 0, p10 := 0, p11 := 1000 }

/-- One projection step of the constant-velocity transition model
`F = [[1,1],[0,1]]`: `x ← F x`, `P ← F P Fᵀ + Q` (spec §4.1). -/
def kalmanProject (s : KalmanFilter) : KalmanFilter :=
  { s with
    x0 := s.x0 + s.x1,
    p00 := s.p00 + s.p10 + s.p01 + s.p11 + kalmanQ,
    p01 := s.p01 + s.p11,
    p10 := s.p10 + s.p11,
    p11 := s.p11 + kalmanQ }

/-- Modelled from the spec: `KalmanFilter.update` — first call initializes
price to the measurement, zero velocity, large covariance; later calls run
one predict-then-correct cycle with gain `K = P Hᵀ / S`,
`S = projected price variance + R` (spec §4.1). -/
def KalmanFilter.update (s : KalmanFilter) (measurement : ℚ) : KalmanFilter :=
  if s.initialized then
    let pr := kalmanProject s
    let innovation := measurement - pr.x0
    let innovation_cov := pr.p00 + kalmanR
    let k0 := pr.p00 / innovation_cov
    let k1 := pr.p10 / innovation_cov
    { initialized := true,
      x0 := pr.x0 + k0 * innovation,
      x1 := pr.x1 + k1 * innovation,
      p00 := (1 - k0) * pr.p00,
      p01 := (1 - k0) * pr.p01,
      p10 := pr.p10 - k1 * pr.p00,
      p11 := pr.p11 - k1 * pr.p01 }
  else
    { initialized := true, x0 := measurement, x1 := 0,
      p00 := 1000, p01 := 0, p10 := 0, p11 := 1000 }

/-- Modelled from the spec: `KalmanFilter.predict(steps)` — project the
current state and covariance forward on LOCAL copies, with no assignment
back to the estimator; `None` when uninitialized (test_app.py lines
69-73). The result carries the projected price and the projected price
VARIANCE (the reported std is its square root, which is irrational and is
determined by it); the returned second component is the estimator state
after the call. -/
def KalmanFilter.predictRun (s : KalmanFilter) (steps : ℕ) :
    Option (ℚ × ℚ) × KalmanFilter :=
  if s.initialized then
    let pr := kalmanProject^[steps] s
    (some (pr.x0, pr.p00), s)
  else (none, s)

/-- `KalmanFilter.get_velocity`: the velocity estimate, 0 if
uninitialized. -/
def KalmanFilter.get_velocity (s : KalmanFilter) : ℚ :=
  if s.initialized then s.x1 else 0

/-- Replay a measurement sequence through `update` from a fresh estimator
(the reference design reinitializes per forecast call, spec §9). -/
def replayKalman (ms : List ℚ) : KalmanFilter :=
  ms.foldl KalmanFilter.update KalmanFilter.fresh

/-- Modelled from the spec: the effectiveness index absent from the src
snapshot's tracker (cli.py reads it from the metrics once ≥ 3 validated
predictions exist). Per spec §4.4 it is a weighted composite in [0, 100]:
directional accuracy contributes up to a maximum share (here half a point
per percent, up to 50), MAPE contributes inversely and clipped (here
`max 0 (30 − 20·mape)`), and interval coverage adds a calibration bonus
peaking on the 90-98 band (20 points; 10 on the adjacent 85-99 band, 0
elsewhere, matching the bands cli.py colors as optimal/acceptable); the
sum is clamped to [0, 100]. -/
def effectivenessIndex (dir_acc mape coverage : ℚ) : ℚ :=
  let direction_score := dir_acc * (1/2)
  let accuracy_score := max 0 (30 - mape * 20)
  let calibration_bonus : ℚ :=
    if 90 ≤ coverage ∧ coverage ≤ 98 then 20
    else if 85 ≤ coverage ∧ coverage ≤ 99 then 10
    else 0
  min 100 (max 0 (direction_score + accuracy_score + calibration_bonus))

/-!
## Sample data shared by witnesses and counterexamples
-/
/-- A concrete component forecast used as sample data. -/
def sampleForecast : Forecast :=
  { prediction := 101, current_price := 100, price_change := 1,
    price_change_pct := 1, horizon_minutes := 5, velocity := 1/5,
    trend := "up", lower_bound := 99, upper_bound := 103, confidence := "high" }

/-- Fallback prediction record for `List.getD` indexing. -/
def defaultPredRec : PredRec :=
  mkPredictionRecord 0 0 0 0 0 0 "" 0 0

/-- Sequential validation calls, as made by the background loops. -/
def foldValidate (st : TrackerState) (calls : List (List HistSample × ℚ)) :
    TrackerState :=
  calls.foldl (fun s c => (validate_predictions s c.1 c.2).2) st

/-- Fallback metric record for `Option.getD` in concrete statements. -/
def fallbackMetricValues : MetricValues :=
  { mae := 0, rmse_sq := 0, mape := 0, directional_accuracy := 0,
    interval_coverage := 0, recent_mape := 0 }

/-- A validated record with `predicted = current = 100` and `actual = 99`:
the tie case where the bucket comparison and the sign comparison of
directional accuracy disagree. -/
def tieRec : PredRec :=
  { timestamp := 0
    current_price := 100
    predicted_price := 100
    horizon_minutes := 5
    velocity := 0
    uncertainty := 0
    confidence := "high"
    lower_bound := 99
    upper_bound := 103
    validated := true
    actual_price := some 99
    error := some (-1)
    error_pct := some (-1)
    within_interval := some true
    validation_time := some 400 }

/-- Tracker state holding only the tie record above. -/
def tieState : TrackerState :=
  { maxPredictions := 100, predictions := [], validated_predictions := [tieRec] }

/-- A 20-sample history rising linearly by 0.06 per tick from 50
(`50 + 0.06·i`, written as reduced fractions). -/
def linHistC7 : List ℚ :=
  [50, 2503/50, 1253/25, 2509/50, 1256/25, 503/10, 1259/25, 2521/50, 1262/25,
   2527/50, 253/5, 2533/50, 1268/25, 2539/50, 1271/25, 509/10, 1274/25, 2551/50,
   1277/25, 2557/50]

/-- The indicators computed on `linHistC7`. -/
def linIndicators : Indicators :=
  { sma := some (2551/50)
    ema := some (197662143203/3874204890)
    momentum := some (6/25)
    roc := some (240/509)
    rsi := some 100 }

/-- The ensemble forecast computed on `linHistC7`. -/
def linEnsOut : EnsembleOut :=
  { prediction := 2569/50
    current_price := 2557/50
    horizon_minutes := 5
    confidence := "medium"
    spread_sq := 4343/125000
    models_used := ["simple_ma", "exponential_smoothing", "linear_regression",
      "momentum", "mean_reversion"]
    num_models := 5
    min_prediction := 5097/100
    max_prediction := 103/2
    indicators := linIndicators }

/-- A flat ten-sample history of constant price 50. -/
def tenFifty : List ℚ := [50, 50, 50, 50, 50, 50, 50, 50, 50, 50]

/-- Indicators on the flat history (RSI needs 14 samples). -/
def flatIndicators : Indicators :=
  { sma := some 50, ema := some 50, momentum := some 0, roc := some 0, rsi := none }

/-- The ensemble forecast on the flat history. -/
def flatEnsOut : EnsembleOut :=
  { prediction := 50
    current_price := 50
    horizon_minutes := 5
    confidence := "high"
    spread_sq := 0
    models_used := ["simple_ma", "exponential_smoothing", "linear_regression",
      "momentum", "mean_reversion"]
    num_models := 5
    min_prediction := 50
    max_prediction := 50
    indicators := flatIndicators }

/-- An outstanding, unvalidated prediction made at time 0 with a 5-minute
horizon (target time 300 s). -/
def pendingState : TrackerState :=
  { maxPredictions := 100,
    predictions := [mkPredictionRecord 0 100 101 5 0 0 "high" 99 103],
    validated_predictions := [] }

/-- A history with one sample 10 s after the pending record's target. -/
def histW : List HistSample := [{ timestamp := 310, price := 102 }]

/-- A tracker whose only outstanding record is already validated. -/
def validatedState : TrackerState :=
  { maxPredictions := 100, predictions := [tieRec], validated_predictions := [] }

/-- Two validation calls, neither of which has a sample within tolerance of
target time 300: one with empty history, one with a sample at time 1000. -/
def noMatchCalls : List (List HistSample × ℚ) :=
  [([], 100), ([{ timestamp := 1000, price := 50 }], 200)]

theorem rhe_le_floor_add_one (q : ℚ) : rhe q ≤ ⌊q⌋ + 1 := by
  unfold rhe; split_ifs <;> omega

theorem floor_le_rhe (q : ℚ) : ⌊q⌋ ≤ rhe q := by
  unfold rhe; split_ifs <;> omega

theorem rhe_mono {a b : ℚ} (h : a ≤ b) : rhe a ≤ rhe b := by
  rcases lt_or_eq_of_le (Int.floor_le_floor h : ⌊a⌋ ≤ ⌊b⌋) with hf | hf
  · calc rhe a ≤ ⌊a⌋ + 1 := rhe_le_floor_add_one a
      _ ≤ ⌊b⌋ := by omega
      _ ≤ rhe b := floor_le_rhe b
  · have hfr : Int.fract a ≤ Int.fract b := by
      simp only [Int.fract, hf]
      have : (⌊b⌋ : ℚ) = (⌊b⌋ : ℚ) := rfl
      linarith [h]
    unfold rhe
    rw [hf] at *
    split_ifs <;> first | omega | linarith

theorem roundTo_mono (d : ℕ) {a b : ℚ} (h : a ≤ b) : roundTo d a ≤ roundTo d b := by
  unfold roundTo
  have hp : (0:ℚ) < (10:ℚ)^d := by positivity
  have h1 : a * (10:ℚ)^d ≤ b * (10:ℚ)^d := by
    exact mul_le_mul_of_nonneg_right h (le_of_lt hp)
  have h2 : (rhe (a * (10:ℚ)^d) : ℚ) ≤ (rhe (b * (10:ℚ)^d) : ℚ) := by
    exact_mod_cast rhe_mono h1
  exact div_le_div_of_nonneg_right h2 hp.le

theorem foldl_min_le_init (xs : List ℚ) (a : ℚ) : xs.foldl min a ≤ a := by
  induction xs generalizing a with
  | nil => simp
  | cons x xs ih =>
    simpa using le_trans (ih (min a x)) (min_le_left a x)

theorem foldl_min_le_mem {xs : List ℚ} {y : ℚ} (hy : y ∈ xs) (a : ℚ) :
    xs.foldl min a ≤ y := by
  induction xs generalizing a with
  | nil => cases hy
  | cons x xs ih =>
    rcases List.mem_cons.mp hy with h | h
    · rw [h]
      exact le_trans (foldl_min_le_init xs (min a x)) (min_le_right a x)
    · exact ih h (min a x)

theorem listMin_le_of_mem {l : List ℚ} {y : ℚ} (hy : y ∈ l) : listMin l ≤ y := by
  cases l with
  | nil => cases hy
  | cons x xs =>
    rcases List.mem_cons.mp hy with h | h
    · rw [h]; exact foldl_min_le_init xs x
    · exact foldl_min_le_mem h x

theorem init_le_foldl_max (xs : List ℚ) (a : ℚ) : a ≤ xs.foldl max a := by
  induction xs generalizing a with
  | nil => simp
  | cons x xs ih =>
    simpa using le_trans (le_max_left a x) (ih (max a x))

theorem mem_le_foldl_max {xs : List ℚ} {y : ℚ} (hy : y ∈ xs) (a : ℚ) :
    y ≤ xs.foldl max a := by
  induction xs generalizing a with
  | nil => cases hy
  | cons x xs ih =>
    rcases List.mem_cons.mp hy with h | h
    · rw [h]
      exact le_trans (le_max_right a x) (init_le_foldl_max xs (max a x))
    · exact ih h (max a x)

theorem le_listMax_of_mem {l : List ℚ} {y : ℚ} (hy : y ∈ l) : y ≤ listMax l := by
  cases l with
  | nil => cases hy
  | cons x xs =>
    rcases List.mem_cons.mp hy with h | h
    · rw [h]; exact init_le_foldl_max xs x
    · exact mem_le_foldl_max h x

theorem insertSorted_perm (x : ℚ) (l : List ℚ) :
    List.Perm (insertSorted x l) (x :: l) := by
  induction l with
  | nil => rfl
  | cons y ys ih =>
    unfold insertSorted
    split_ifs
    · rfl
    · exact List.Perm.trans (List.Perm.cons y ih) (List.Perm.swap x y ys)

theorem sortQ_perm (l : List ℚ) : List.Perm (sortQ l) l := by
  induction l with
  | nil => rfl
  | cons x xs ih =>
    exact List.Perm.trans (insertSorted_perm x (sortQ xs)) (List.Perm.cons x ih)

theorem mem_of_mem_sortQ {l : List ℚ} {y : ℚ} (hy : y ∈ sortQ l) : y ∈ l :=
  (sortQ_perm l).mem_iff.mp hy

theorem sortQ_length (l : List ℚ) : (sortQ l).length = l.length :=
  (sortQ_perm l).length_eq

theorem getD_mem_of_lt {l : List ℚ} {i : ℕ} (h : i < l.length) (d : ℚ) :
    l.getD i d ∈ l := by
  induction l generalizing i with
  | nil => simp at h
  | cons x xs ih =>
    cases i with
    | zero => simp [List.getD]
    | succ j =>
      have hj : j < xs.length := by simpa using h
      simpa [List.getD] using Or.inr (ih hj)

theorem medianQ_bounds {l : List ℚ} (h : l ≠ []) :
    listMin l ≤ medianQ l ∧ medianQ l ≤ listMax l := by
  have hn : 0 < (sortQ l).length := by
    rw [sortQ_length]
    exact List.length_pos.mpr h
  unfold medianQ
  split_ifs with hodd
  · have hm : (sortQ l).getD ((sortQ l).length / 2) 0 ∈ l :=
      mem_of_mem_sortQ (getD_mem_of_lt (by omega : (sortQ l).length / 2 < (sortQ l).length) 0)
    exact ⟨listMin_le_of_mem hm, le_listMax_of_mem hm⟩
  · have h1 : (sortQ l).getD ((sortQ l).length / 2 - 1) 0 ∈ l :=
      mem_of_mem_sortQ (getD_mem_of_lt (by omega) 0)
    have h2 : (sortQ l).getD ((sortQ l).length / 2) 0 ∈ l :=
      mem_of_mem_sortQ (getD_mem_of_lt (by omega) 0)
    constructor
    · have a1 := listMin_le_of_mem h1
      have a2 := listMin_le_of_mem h2
      linarith
    · have a1 := le_listMax_of_mem h1
      have a2 := le_listMax_of_mem h2
      linarith

/-!
## Theorems
-/
/-- C2: if exactly one of the ensemble's two component models (Kalman-backed
or AutoML) returns a forecast and the other returns null,
`EnsembleForecaster.forecast` returns the sole successful model's forecast
unmodified; and it returns null exactly when both components fail. The
hypotheses `hk`/`ha` are the components' own insufficient-data contracts
(Kalman threshold 10, AutoML threshold 30). -/
theorem ensemble_degrades_to_sole_model (n : ℕ) (kalmanF autoF : Option Forecast)
    (kw aw hor : ℚ)
    (hk : n < 10 → kalmanF = none)
    (ha : n < 30 → autoF = none) :
    (∀ f, kalmanF = some f → autoF = none →
      ensembleForecast 30 n kalmanF autoF kw aw hor = some f) ∧
    (∀ f, autoF = some f → kalmanF = none →
      ensembleForecast 30 n kalmanF autoF kw aw hor = some f) ∧
    (ensembleForecast 30 n kalmanF autoF kw aw hor = none ↔
      (kalmanF = none ∧ autoF = none)) := by
  unfold ensembleForecast
  refine ⟨?_, ?_, ?_⟩
  · intro f hkf haf
    subst hkf; subst haf
    split_ifs with h1 h2
    · rfl
    · exact absurd (hk (by omega)) (by simp)
    · rfl
  · intro f haf hkf
    subst haf; subst hkf
    split_ifs with h1 h2
    · exact absurd (ha h1) (by simp)
    · exact absurd (ha h1) (by simp)
    · rfl
  · constructor
    · intro hres
      split_ifs at hres with h1 h2
      · exact ⟨hres, ha h1⟩
      · exact ⟨hk (by omega), ha h1⟩
      · cases hkf : kalmanF with
        | none =>
          cases haf : autoF with
          | none => exact ⟨rfl, rfl⟩
          | some a => rw [hkf, haf] at hres; cases hres
        | some k =>
          cases haf : autoF with
          | none => rw [hkf, haf] at hres; cases hres
          | some a => rw [hkf, haf] at hres; cases hres
    · rintro ⟨hkf, haf⟩
      subst hkf; subst haf
      split_ifs <;> rfl

/-- C2 witness: with 40 samples, a failed Kalman component and a successful
AutoML component, the ensemble returns the AutoML forecast unchanged. -/
theorem ensemble_degrades_to_sole_model_witness :
    ensembleForecast 30 40 none (some sampleForecast) (2/5) (3/5) 5 = some sampleForecast :=
  (ensemble_degrades_to_sole_model 40 none (some sampleForecast) (2/5) (3/5) 5
    (fun h => absurd h (by omega)) (fun h => absurd h (by omega))).2.1
    sampleForecast rfl rfl

/-- C3 (code bug): the spec and the CLI require the tracker's metrics to
carry `effectiveness_index` and `rating` (and the direction counts), but
the dictionary built by `get_accuracy_metrics` in
src/prediction_tracker.py has no such keys: `cmd_status` would fail with a
`KeyError` as soon as it reads them (≥ 3 validated predictions). -/
theorem effectiveness_index_key_missing :
    ("effectiveness_index" ∈ cmdStatusTopKeys ∧
      "effectiveness_index" ∉ accuracyMetricsTopKeys) ∧
    ("rating" ∈ cmdStatusTopKeys ∧ "rating" ∉ accuracyMetricsTopKeys) ∧
    ("correct_direction_count" ∈ cmdStatusInnerKeys ∧
      "correct_direction_count" ∉ accuracyMetricsInnerKeys) := by
  decide

/-- C4: the (spec-modelled) effectiveness index is monotone — holding MAPE
and coverage fixed, a higher directional accuracy does not lower the
index; holding directional accuracy and coverage fixed, a higher MAPE does
not raise it. -/
theorem effectivenessIndex_monotone (d1 d2 m1 m2 c : ℚ)
    (hd : d1 ≤ d2) (hm : m1 ≤ m2) :
    effectivenessIndex d1 m1 c ≤ effectivenessIndex d2 m1 c ∧
    effectivenessIndex d1 m2 c ≤ effectivenessIndex d1 m1 c := by
  unfold effectivenessIndex
  constructor
  · refine min_le_min le_rfl (max_le_max le_rfl ?_)
    have : d1 * (1/2) ≤ d2 * (1/2) := by linarith
    linarith
  · refine min_le_min le_rfl (max_le_max le_rfl ?_)
    have : max 0 (30 - m2 * 20) ≤ max 0 (30 - m1 * 20) :=
      max_le_max le_rfl (by linarith)
    linarith

/-- C4 witness: concrete instances of both monotonicity directions. -/
theorem effectivenessIndex_monotone_witness :
    (60:ℚ) ≤ 70 ∧ (1:ℚ) ≤ 2 ∧
    effectivenessIndex 60 1 95 ≤ effectivenessIndex 70 1 95 ∧
    effectivenessIndex 60 2 95 ≤ effectivenessIndex 60 1 95 :=
  ⟨by norm_num, by norm_num,
    (effectivenessIndex_monotone 60 70 1 2 95 (by norm_num) (by norm_num)).1,
    (effectivenessIndex_monotone 60 70 1 2 95 (by norm_num) (by norm_num)).2⟩

/-- C6 counterexample: with 15 samples — fewer than the ensemble's
`min_samples = 30` — and a Kalman component forecast available,
`EnsembleForecaster.forecast` returns that forecast rather than null. -/
theorem forecast_below_min_samples_not_none :
    ensembleForecast 30 15 (some sampleForecast) none (2/5) (3/5) 5 =
      some sampleForecast ∧ 15 < 30 := ⟨rfl, by omega⟩

/-- C6 amended: every model, combiner, or tracker operation invoked below
its data threshold returns null or an empty/sentinel result rather than
raising — each GGAL model prediction and ensemble returns null below
`min_samples`; `AutoMLForecaster.forecast` and its signal generator return
null below their `min_samples`; `validate_predictions` on an empty history
returns count 0 with the state unchanged; `get_accuracy_metrics` with no
validated record returns the null-metrics sentinel; and
`EnsembleForecaster.generate_trading_signal` returns null below 15
samples — with two deviations from the claim's wording:
`GGALForecaster.generate_trading_signal` returns a HOLD placeholder
dictionary (not null), and for 10 ≤ n < 30 (resp. 15 ≤ n < 30)
`EnsembleForecaster.forecast` (resp. its signal generator) falls back to
the Kalman component's result instead of returning null. -/
theorem insufficient_data_behavior (ms : ℕ) (h : List ℚ) (hor : ℚ) (n : ℕ)
    (kalmanF autoF : Option Forecast) (kw aw : ℚ)
    (hlen : h.length < ms)
    (hk : n < 10 → kalmanF = none) :
    predict_simple_ma ms h hor = none ∧
    predict_exponential_smoothing ms h hor (3/10) = none ∧
    predict_linear_regression ms h hor = none ∧
    predict_momentum_based ms h hor = none ∧
    predict_mean_reversion ms h hor = none ∧
    ensemble_forecast ms h hor = none ∧
    (ggalGenerateTradingSignal ms h).signal = "HOLD" ∧
    (n < 10 → ensembleForecast 30 n kalmanF autoF kw aw hor = none) ∧
    (10 ≤ n → n < 30 → ensembleForecast 30 n kalmanF autoF kw aw hor = kalmanF) ∧
    (∀ (msA : ℕ) (modelResult : Option Forecast), n < msA →
      automlForecast msA n modelResult = none) ∧
    (∀ (msA : ℕ) (forecastResult : Option Forecast), n < msA →
      automlGenerateTradingSignal msA n forecastResult = none) ∧
    (∀ (kalmanSig : Option ThresholdSignal) (forecastResult : Option Forecast),
      n < 15 → ensembleGenerateTradingSignal 30 n kalmanSig forecastResult = none) ∧
    (∀ (kalmanSig : Option ThresholdSignal) (forecastResult : Option Forecast),
      15 ≤ n → n < 30 →
        ensembleGenerateTradingSignal 30 n kalmanSig forecastResult = kalmanSig) ∧
    (∀ (st : TrackerState) (now : ℚ), validate_predictions st [] now = (0, st)) ∧
    (∀ st : TrackerState, st.validated_predictions = [] →
      get_accuracy_metrics st =
        { total_predictions := 0, validated_predictions := 0,
          metrics := none, summary := none }) := by
  have he : extract_prices ms h = none := by
    unfold extract_prices
    simp [hlen]
  refine ⟨?_, ?_, ?_, ?_, ?_, ?_, ?_, ?_, ?_, ?_, ?_, ?_, ?_, ?_, ?_⟩
  · unfold predict_simple_ma; rw [he]
  · unfold predict_exponential_smoothing; rw [he]
  · unfold predict_linear_regression; rw [he]
  · unfold predict_momentum_based; rw [he]
  · unfold predict_mean_reversion; rw [he]
  · unfold ensemble_forecast; rw [he]
  · unfold ggalGenerateTradingSignal; rw [he]
  · intro hn
    unfold ensembleForecast
    rw [hk hn, if_pos (by omega : n < 30), if_neg (by omega : ¬ 10 ≤ n)]
  · intro h10 h30
    unfold ensembleForecast
    rw [if_pos h30, if_pos h10]
  · intro msA modelResult hA
    unfold automlForecast
    rw [if_pos hA]
  · intro msA forecastResult hA
    unfold automlGenerateTradingSignal
    rw [if_pos hA]
  · intro kalmanSig forecastResult h15
    unfold ensembleGenerateTradingSignal
    rw [if_pos (by omega : n < 30), if_neg (by omega : ¬ 15 ≤ n)]
  · intro kalmanSig forecastResult h15 h30
    unfold ensembleGenerateTradingSignal
    rw [if_pos h30, if_pos h15]
  · intro st now
    unfold validate_predictions
    rfl
  · intro st hE
    unfold get_accuracy_metrics
    rw [if_pos (by rw [hE]; rfl)]

/-- C6 witness: a one-sample history is below every threshold; the models
return null, the GGAL signal falls back to HOLD, the ensemble forecast
and the AutoML and ensemble signal generators with 5 samples return null,
an empty-history validation call returns (0, unchanged state), and the
metrics of a state with no validated record are the sentinel. -/
theorem insufficient_data_behavior_witness :
    predict_simple_ma 10 [50] 5 = none ∧
    (ggalGenerateTradingSignal 10 [50]).signal = "HOLD" ∧
    ensembleForecast 30 5 none none (2/5) (3/5) 5 = none ∧
    automlForecast 30 5 none = none ∧
    automlGenerateTradingSignal 30 5 none = none ∧
    ensembleGenerateTradingSignal 30 5 none none = none ∧
    validate_predictions pendingState [] 100 = (0, pendingState) ∧
    get_accuracy_metrics pendingState =
      { total_predictions := 0, validated_predictions := 0,
        metrics := none, summary := none } := by
  have hfull := insufficient_data_behavior 10 [50] 5 5 none none (2/5) (3/5)
    (by decide) (fun _ => rfl)
  obtain ⟨c1, c2, c3, c4, c5, c6, c7, c8, c9, c10, c11, c12, c13, c14, c15⟩ := hfull
  exact ⟨c1, c7, c8 (by decide), c10 30 none (by decide), c11 30 none (by decide),
    c12 none none (by decide), c14 pendingState 100, c15 pendingState rfl⟩

/-- C7 amended: for the ensemble and Auto-ARIMA signal generators the
claimed characterization holds exactly — BUY iff the forecast change
exceeds +0.3% with medium/high confidence, SELL iff it is below −0.3%
with medium/high confidence, HOLD otherwise. (`GGALForecaster`'s own
generator instead uses ±0.5% thresholds with RSI and momentum overrides
and ignores confidence; see the counterexample.) -/
theorem signalAction_characterization (c : ℚ) (conf : String) :
    (signalAction c conf = "BUY" ↔
      (c > 3/10 ∧ (conf = "high" ∨ conf = "medium"))) ∧
    (signalAction c conf = "SELL" ↔
      (c < -(3/10) ∧ (conf = "high" ∨ conf = "medium"))) ∧
    (signalAction c conf = "HOLD" ↔
      (¬(c > 3/10 ∧ (conf = "high" ∨ conf = "medium")) ∧
       ¬(c < -(3/10) ∧ (conf = "high" ∨ conf = "medium")))) := by
  unfold signalAction
  split_ifs with h1 h2
  · obtain ⟨hc, hconf⟩ := h1
    exact ⟨iff_of_true rfl ⟨hc, hconf⟩,
      iff_of_false (by decide) (fun hcond => by linarith [hcond.1]),
      iff_of_false (by decide) (fun hcond => hcond.1 ⟨hc, hconf⟩)⟩
  · obtain ⟨hc, hconf⟩ := h2
    exact ⟨iff_of_false (by decide) (fun hcond => h1 hcond),
      iff_of_true rfl ⟨hc, hconf⟩,
      iff_of_false (by decide) (fun hcond => hcond.2 ⟨hc, hconf⟩)⟩
  · exact ⟨iff_of_false (by decide) h1, iff_of_false (by decide) h2,
      iff_of_true rfl ⟨h1, h2⟩⟩

theorem getD_mem_of_lt' {α : Type} {l : List α} {i : ℕ} (h : i < l.length) (d : α) :
    l.getD i d ∈ l := by
  induction l generalizing i with
  | nil => simp at h
  | cons x xs ih =>
    cases i with
    | zero => simp [List.getD]
    | succ j =>
      have hj : j < xs.length := by simpa using h
      simpa [List.getD] using Or.inr (ih hj)

theorem getD_map_lt {α β : Type} (f : α → β) {l : List α} {i : ℕ}
    (h : i < l.length) (d1 : α) (d2 : β) :
    (l.map f).getD i d2 = f (l.getD i d1) := by
  induction l generalizing i with
  | nil => simp at h
  | cons x xs ih =>
    cases i with
    | zero => simp [List.getD]
    | succ j =>
      have hj : j < xs.length := by simpa using h
      simpa [List.getD] using ih hj

theorem getD_eq_default_of_le {α : Type} {l : List α} {i : ℕ}
    (h : l.length ≤ i) (d : α) : l.getD i d = d := by
  induction l generalizing i with
  | nil => cases i <;> rfl
  | cons x xs ih =>
    cases i with
    | zero => simp at h
    | succ j =>
      have hj : xs.length ≤ j := by simpa using h
      simpa [List.getD] using ih hj

theorem newlyValidatedB_not_validated {hd : List (ℚ × ℚ)} {now : ℚ} {p : PredRec}
    (h : newlyValidatedB hd now p = true) : p.validated = false := by
  unfold newlyValidatedB at h
  cases hv : p.validated
  · rfl
  · rw [hv] at h; simp at h

theorem processRecord_validated_eq (hd : List (ℚ × ℚ)) (now : ℚ) (p : PredRec) :
    (processRecord hd now p).validated = (p.validated || newlyValidatedB hd now p) := by
  by_cases h1 : p.validated
  · simp [processRecord, newlyValidatedB, h1]
  · by_cases h2 : now < targetTime p
    · simp [processRecord, newlyValidatedB, h1, h2]
    · cases hfind : findClosestPrice (targetTime p) hd with
      | none => simp [processRecord, newlyValidatedB, h1, h2, hfind]
      | some a => simp [processRecord, newlyValidatedB, h1, h2, hfind]

theorem processRecord_of_validated {p : PredRec} (hd : List (ℚ × ℚ)) (now : ℚ)
    (hv : p.validated = true) : processRecord hd now p = p := by
  unfold processRecord
  rw [if_pos hv]

theorem processRecord_of_find_none {p : PredRec} {hd : List (ℚ × ℚ)} (now : ℚ)
    (hfind : findClosestPrice (targetTime p) hd = none) :
    processRecord hd now p = p := by
  unfold processRecord
  split_ifs with h1 h2
  · rfl
  · rfl
  · rw [hfind]

theorem countValidated_map_process (hd : List (ℚ × ℚ)) (now : ℚ) (l : List PredRec) :
    countValidated (l.map (processRecord hd now)) =
      countValidated l + (l.filter (newlyValidatedB hd now)).length := by
  induction l with
  | nil => rfl
  | cons p l ih =>
    simp only [countValidated, List.map_cons, List.countP_cons, List.filter_cons] at *
    rw [processRecord_validated_eq]
    cases hv : p.validated with
    | true =>
      have hnv : newlyValidatedB hd now p = false := by
        cases hnb : newlyValidatedB hd now p
        · rfl
        · rw [newlyValidatedB_not_validated hnb] at hv; cases hv
      simp only [hnv, Bool.or_false, hv, if_true, if_false, Bool.false_eq_true]
      omega
    | false =>
      cases hnb : newlyValidatedB hd now p with
      | true =>
        simp only [Bool.false_or, hnb, if_true, List.length_cons, Bool.false_eq_true,
          if_false]
        omega
      | false =>
        simp only [Bool.false_or, hnb, Bool.false_eq_true, if_false]
        omega

/-- C1: in a `validate_predictions` call at time `now`, every outstanding
unvalidated record whose target time (`timestamp + horizon`) is in the past
and for which the history contains a sample within the ±30-second tolerance
of the target gets `error = actual − predicted`,
`error_pct = error / current_price × 100`,
`within_interval = (lower_bound ≤ actual ≤ upper_bound)`, is marked
validated, is copied into the validated buffer — the outstanding buffer is
within its capacity (`hcap`, the invariant every `deque(maxlen)` keeps), so
the newly appended copies always survive the validated deque's eviction —
and the call returns exactly the number of records newly validated. -/
theorem validate_predictions_spec (st : TrackerState) (hist : List HistSample)
    (now : ℚ) (i : ℕ) (a : ℚ)
    (hi : i < st.predictions.length)
    (hval : (st.predictions.getD i defaultPredRec).validated = false)
    (hdue : targetTime (st.predictions.getD i defaultPredRec) < now)
    (hfound : findClosestPrice (targetTime (st.predictions.getD i defaultPredRec))
      (buildDict hist) = some a)
    (hcap : st.predictions.length ≤ st.maxPredictions)
    (hhist : hist ≠ []) :
    ((validate_predictions st hist now).2.predictions.getD i defaultPredRec).validated = true ∧
    ((validate_predictions st hist now).2.predictions.getD i defaultPredRec).actual_price = some a ∧
    ((validate_predictions st hist now).2.predictions.getD i defaultPredRec).error =
      some (a - (st.predictions.getD i defaultPredRec).predicted_price) ∧
    ((validate_predictions st hist now).2.predictions.getD i defaultPredRec).error_pct =
      some ((a - (st.predictions.getD i defaultPredRec).predicted_price) /
        (st.predictions.getD i defaultPredRec).current_price * 100) ∧
    ((validate_predictions st hist now).2.predictions.getD i defaultPredRec).within_interval =
      some (decide ((st.predictions.getD i defaultPredRec).lower_bound ≤ a ∧
        a ≤ (st.predictions.getD i defaultPredRec).upper_bound)) ∧
    ((validate_predictions st hist now).2.predictions.getD i defaultPredRec) ∈
      (validate_predictions st hist now).2.validated_predictions ∧
    (validate_predictions st hist now).1 =
      countValidated (validate_predictions st hist now).2.predictions -
        countValidated st.predictions := by
  have hne : hist.isEmpty = false := by
    cases hist with
    | nil => exact absurd rfl hhist
    | cons x xs => rfl
  have hnow : ¬ now < targetTime (st.predictions.getD i defaultPredRec) :=
    not_lt.mpr (le_of_lt hdue)
  have hnewly : newlyValidatedB (buildDict hist) now
      (st.predictions.getD i defaultPredRec) = true := by
    unfold newlyValidatedB
    rw [hval, hfound, decide_eq_false hnow]
    rfl
  have hproc : processRecord (buildDict hist) now (st.predictions.getD i defaultPredRec) =
      { st.predictions.getD i defaultPredRec with
        validated := true,
        actual_price := some a,
        error := some (a - (st.predictions.getD i defaultPredRec).predicted_price),
        error_pct := some ((a - (st.predictions.getD i defaultPredRec).predicted_price) /
          (st.predictions.getD i defaultPredRec).current_price * 100),
        within_interval := some (decide ((st.predictions.getD i defaultPredRec).lower_bound ≤ a ∧
          a ≤ (st.predictions.getD i defaultPredRec).upper_bound)),
        validation_time := some now } := by
    unfold processRecord
    rw [if_neg (by rw [hval]; exact Bool.false_ne_true), if_neg hnow, hfound]
  have hmain : (validate_predictions st hist now) =
      ((((st.predictions.filter (newlyValidatedB (buildDict hist) now)).map
          (processRecord (buildDict hist) now)).length),
        { st with
          predictions := st.predictions.map (processRecord (buildDict hist) now),
          validated_predictions := dequeAppendAll st.maxPredictions
            st.validated_predictions
            ((st.predictions.filter (newlyValidatedB (buildDict hist) now)).map
              (processRecord (buildDict hist) now)) }) := by
    unfold validate_predictions
    rw [hne]
    rfl
  rw [hmain]
  have hgetD : (st.predictions.map (processRecord (buildDict hist) now)).getD i
      defaultPredRec =
      processRecord (buildDict hist) now (st.predictions.getD i defaultPredRec) :=
    getD_map_lt _ hi defaultPredRec defaultPredRec
  refine ⟨?_, ?_, ?_, ?_, ?_, ?_, ?_⟩
  · rw [hgetD, hproc]
  · rw [hgetD, hproc]
  · rw [hgetD, hproc]
  · rw [hgetD, hproc]
  · rw [hgetD, hproc]
  · -- membership in the validated buffer: at most `predictions.length ≤
    -- maxPredictions` records are appended, so the deque eviction can only
    -- drop old entries, never the newly appended copies
    rw [hgetD]
    have hmemf : (st.predictions.getD i defaultPredRec) ∈
        st.predictions.filter (newlyValidatedB (buildDict hist) now) :=
      List.mem_filter.mpr ⟨getD_mem_of_lt' hi defaultPredRec, hnewly⟩
    have hmemm : processRecord (buildDict hist) now (st.predictions.getD i defaultPredRec) ∈
        (st.predictions.filter (newlyValidatedB (buildDict hist) now)).map
          (processRecord (buildDict hist) now) :=
      List.mem_map.mpr ⟨_, hmemf, rfl⟩
    simp only [dequeAppendAll]
    have hnlen : ((st.predictions.filter (newlyValidatedB (buildDict hist) now)).map
        (processRecord (buildDict hist) now)).length ≤ st.maxPredictions := by
      rw [List.length_map]
      have := List.length_filter_le (newlyValidatedB (buildDict hist) now) st.predictions
      omega
    have hk : (st.validated_predictions ++
        (st.predictions.filter (newlyValidatedB (buildDict hist) now)).map
          (processRecord (buildDict hist) now)).length - st.maxPredictions ≤
        st.validated_predictions.length := by
      rw [List.length_append]
      omega
    rw [List.drop_append_of_le_length hk]
    exact List.mem_append.mpr (Or.inr hmemm)
  · rw [countValidated_map_process, List.length_map]
    omega

theorem validate_preserves_length (st : TrackerState) (hist : List HistSample)
    (now : ℚ) :
    (validate_predictions st hist now).2.predictions.length = st.predictions.length := by
  unfold validate_predictions
  split_ifs
  · rfl
  · simp

theorem validate_getD_of_validated {st : TrackerState} {i : ℕ}
    (hist : List HistSample) (now : ℚ)
    (hv : (st.predictions.getD i defaultPredRec).validated = true) :
    (validate_predictions st hist now).2.predictions.getD i defaultPredRec =
      st.predictions.getD i defaultPredRec := by
  unfold validate_predictions
  split_ifs
  · rfl
  · by_cases hi : i < st.predictions.length
    · simp only
      rw [getD_map_lt _ hi defaultPredRec defaultPredRec,
        processRecord_of_validated _ _ hv]
    · simp only
      rw [getD_eq_default_of_le (by simpa using not_lt.mp hi) defaultPredRec,
        getD_eq_default_of_le (by simpa using not_lt.mp hi) defaultPredRec]

theorem validate_getD_of_find_none {st : TrackerState} {i : ℕ}
    {hist : List HistSample} (now : ℚ)
    (hfind : findClosestPrice (targetTime (st.predictions.getD i defaultPredRec))
      (buildDict hist) = none) :
    (validate_predictions st hist now).2.predictions.getD i defaultPredRec =
      st.predictions.getD i defaultPredRec := by
  unfold validate_predictions
  split_ifs
  · rfl
  · by_cases hi : i < st.predictions.length
    · simp only
      rw [getD_map_lt _ hi defaultPredRec defaultPredRec,
        processRecord_of_find_none _ hfind]
    · simp only
      rw [getD_eq_default_of_le (by simpa using not_lt.mp hi) defaultPredRec,
        getD_eq_default_of_le (by simpa using not_lt.mp hi) defaultPredRec]

/-- C8: prediction records are mutated at most once. Across any sequence of
`validate_predictions` calls the outstanding buffer keeps its length (no
record is removed — only FIFO eviction by `add_prediction` can drop one); a
record already validated is never changed again; and a record whose target
time never has a matching history sample within the ±30-second tolerance is
left entirely unchanged — in particular it stays `validated = false`. -/
theorem prediction_records_immutable (st : TrackerState)
    (calls : List (List HistSample × ℚ)) (i : ℕ) :
    (foldValidate st calls).predictions.length = st.predictions.length ∧
    ((st.predictions.getD i defaultPredRec).validated = true →
      (foldValidate st calls).predictions.getD i defaultPredRec =
        st.predictions.getD i defaultPredRec) ∧
    ((∀ c ∈ calls, findClosestPrice
        (targetTime (st.predictions.getD i defaultPredRec)) (buildDict c.1) = none) →
      (foldValidate st calls).predictions.getD i defaultPredRec =
        st.predictions.getD i defaultPredRec) := by
  induction calls generalizing st with
  | nil => exact ⟨rfl, fun _ => rfl, fun _ => rfl⟩
  | cons c cs ih =>
    have hstep : foldValidate st (c :: cs) =
        foldValidate (validate_predictions st c.1 c.2).2 cs := rfl
    refine ⟨?_, ?_, ?_⟩
    · rw [hstep, (ih (validate_predictions st c.1 c.2).2).1,
        validate_preserves_length]
    · intro hv
      have h1 : (validate_predictions st c.1 c.2).2.predictions.getD i defaultPredRec =
          st.predictions.getD i defaultPredRec :=
        validate_getD_of_validated c.1 c.2 hv
      rw [hstep, (ih (validate_predictions st c.1 c.2).2).2.1 (by rw [h1]; exact hv), h1]
    · intro hnm
      have h1 : (validate_predictions st c.1 c.2).2.predictions.getD i defaultPredRec =
          st.predictions.getD i defaultPredRec :=
        validate_getD_of_find_none c.2 (hnm c (List.mem_cons_self c cs))
      rw [hstep, (ih (validate_predictions st c.1 c.2).2).2.2
        (fun d hd => by rw [h1]; exact hnm d (List.mem_cons_of_mem c hd)), h1]

theorem length_filterMap_of_isSome {α β : Type} (f : α → Option β) {l : List α}
    (h : ∀ r ∈ l, (f r).isSome) : (l.filterMap f).length = l.length := by
  induction l with
  | nil => rfl
  | cons x xs ih =>
    rw [List.filterMap_cons]
    cases hf : f x with
    | none =>
      have := h x (List.mem_cons_self x xs)
      rw [hf] at this
      cases this
    | some b =>
      simp only [List.length_cons]
      rw [ih (fun r hr => h r (List.mem_cons_of_mem x hr))]

theorem countP_id_filterMap_within (l : List PredRec) :
    (l.filterMap (fun p => p.within_interval)).countP id =
      l.countP (fun p => decide (p.within_interval = some true)) := by
  induction l with
  | nil => rfl
  | cons x xs ih =>
    rw [List.filterMap_cons, List.countP_cons]
    cases hf : x.within_interval with
    | none => simp [hf, ih]
    | some b =>
      cases b with
      | true => simp [List.countP_cons, hf, ih]
      | false => simp [List.countP_cons, hf, ih]

/-- Field-level description of `get_accuracy_metrics` on states whose
validated records are complete, used by the C5 theorem and witnesses. -/
theorem accuracy_metrics_fields (st : TrackerState)
    (hcomp : ∀ r ∈ st.validated_predictions,
      r.error.isSome ∧ r.error_pct.isSome ∧ r.within_interval.isSome) :
    (st.validated_predictions = [] →
      get_accuracy_metrics st =
        { total_predictions := 0, validated_predictions := 0,
          metrics := none, summary := none }) ∧
    (st.validated_predictions ≠ [] →
      (get_accuracy_metrics st).metrics = some
        { mae := roundTo 3
            (((st.validated_predictions.filterMap (fun p => p.error)).map
                (fun e => |e|)).sum / st.validated_predictions.length),
          rmse_sq :=
            ((st.validated_predictions.filterMap (fun p => p.error)).map
                (fun e => e ^ 2)).sum / st.validated_predictions.length,
          mape := roundTo 2
            (((st.validated_predictions.filterMap (fun p => p.error_pct)).map
                (fun e => |e|)).sum / st.validated_predictions.length),
          directional_accuracy := roundTo 1
            ((correctDirectionCount st.validated_predictions : ℚ) /
              st.validated_predictions.length * 100),
          interval_coverage := roundTo 1
            ((st.validated_predictions.countP
                (fun p => decide (p.within_interval = some true)) : ℚ) /
              st.validated_predictions.length * 100),
          recent_mape := roundTo 2
            ((((st.validated_predictions.filterMap (fun p => p.error_pct)).drop
                  ((st.validated_predictions.filterMap (fun p => p.error_pct)).length - 10)).map
                (fun e => |e|)).sum /
              ((st.validated_predictions.filterMap (fun p => p.error_pct)).drop
                ((st.validated_predictions.filterMap (fun p => p.error_pct)).length - 10)).length) }) := by
  constructor
  · intro hE
    unfold get_accuracy_metrics
    rw [if_pos (by rw [hE]; rfl)]
  · intro hne
    have hLpos : 0 < st.validated_predictions.length := List.length_pos.mpr hne
    have herr : (st.validated_predictions.filterMap (fun p => p.error)).length =
        st.validated_predictions.length :=
      length_filterMap_of_isSome _ (fun r hr => (hcomp r hr).1)
    have hpct : (st.validated_predictions.filterMap (fun p => p.error_pct)).length =
        st.validated_predictions.length :=
      length_filterMap_of_isSome _ (fun r hr => (hcomp r hr).2.1)
    have hwi : (st.validated_predictions.filterMap (fun p => p.within_interval)).length =
        st.validated_predictions.length :=
      length_filterMap_of_isSome _ (fun r hr => (hcomp r hr).2.2)
    have hEb : st.validated_predictions.isEmpty = false := by
      cases hl2 : st.validated_predictions with
      | nil => exact absurd hl2 hne
      | cons a as => rfl
    have herrEb : (st.validated_predictions.filterMap (fun p => p.error)).isEmpty = false := by
      cases hl2 : st.validated_predictions.filterMap (fun p => p.error) with
      | nil => rw [hl2] at herr; simp at herr; omega
      | cons a as => rfl
    have hwiEb : (st.validated_predictions.filterMap
        (fun p => p.within_interval)).isEmpty = false := by
      cases hl2 : st.validated_predictions.filterMap (fun p => p.within_interval) with
      | nil => rw [hl2] at hwi; simp at hwi; omega
      | cons a as => rfl
    have hrecEq : (if (st.validated_predictions.filterMap (fun p => p.error_pct)).length ≥ 10
        then (st.validated_predictions.filterMap (fun p => p.error_pct)).drop
          ((st.validated_predictions.filterMap (fun p => p.error_pct)).length - 10)
        else st.validated_predictions.filterMap (fun p => p.error_pct)) =
        (st.validated_predictions.filterMap (fun p => p.error_pct)).drop
          ((st.validated_predictions.filterMap (fun p => p.error_pct)).length - 10) := by
      split_ifs with h10
      · rfl
      · rw [Nat.sub_eq_zero_of_le (by omega), List.drop_zero]
    have hrecEb : ((st.validated_predictions.filterMap (fun p => p.error_pct)).drop
        ((st.validated_predictions.filterMap (fun p => p.error_pct)).length - 10)).isEmpty
          = false := by
      cases hl2 : (st.validated_predictions.filterMap (fun p => p.error_pct)).drop
          ((st.validated_predictions.filterMap (fun p => p.error_pct)).length - 10) with
      | nil =>
        have := congrArg List.length hl2
        rw [List.length_drop] at this
        simp at this
        omega
      | cons a as => rfl
    unfold get_accuracy_metrics
    rw [if_neg (by rw [hEb]; simp), if_neg (by rw [herrEb]; simp)]
    simp only [Option.some.injEq]
    have ecast : ((st.validated_predictions.filterMap (fun p => p.error)).length : ℚ) =
        (st.validated_predictions.length : ℚ) := by rw [herr]
    have pcast : ((st.validated_predictions.filterMap (fun p => p.error_pct)).length : ℚ) =
        (st.validated_predictions.length : ℚ) := by rw [hpct]
    have wcast : ((st.validated_predictions.filterMap
        (fun p => p.within_interval)).length : ℚ) =
        (st.validated_predictions.length : ℚ) := by rw [hwi]
    refine MetricValues.mk.injEq _ _ _ _ _ _ _ _ _ _ _ _ ▸ ⟨?_, ?_, ?_, ?_, ?_, ?_⟩
    · unfold meanQ
      rw [List.length_map, ecast]
    · unfold meanQ
      rw [List.length_map, ecast]
    · unfold meanQ
      rw [List.length_map, pcast]
    · rw [ecast]
    · rw [if_neg (by rw [hwiEb]; simp), countP_id_filterMap_within, wcast]
    · rw [hrecEq, if_neg (by rw [hrecEb]; simp)]
      unfold meanQ
      rw [List.length_map]

/-- C5 amended: on tracker states whose validated records are complete (as
every record placed there by `validate_predictions` is),
`get_accuracy_metrics` returns the sentinel when no validated record
exists, and otherwise MAE = mean |error| rounded to 3 decimals, RMSE =
sqrt of `rmse_sq` = sqrt(mean error²) (pre-rounding), MAPE = mean
|error_pct| rounded to 2, directional accuracy = the percentage of
validated records whose up/down bucket of predicted vs current (`up` iff
strictly greater) matches that of actual vs current, rounded to 1 decimal
— NOT the three-valued-sign comparison of the original claim, see the
counterexample —, interval coverage = the percentage with
`within_interval = true` rounded to 1 decimal, and recent MAPE = the mean
|error_pct| of the 10 most recent validated records rounded to 2. -/
theorem get_accuracy_metrics_spec (st : TrackerState)
    (hcomp : ∀ r ∈ st.validated_predictions,
      r.error.isSome ∧ r.error_pct.isSome ∧ r.within_interval.isSome) :
    (st.validated_predictions = [] →
      get_accuracy_metrics st =
        { total_predictions := 0, validated_predictions := 0,
          metrics := none, summary := none }) ∧
    (st.validated_predictions ≠ [] →
      (get_accuracy_metrics st).metrics = some
        { mae := roundTo 3
            (((st.validated_predictions.filterMap (fun p => p.error)).map
                (fun e => |e|)).sum / st.validated_predictions.length),
          rmse_sq :=
            ((st.validated_predictions.filterMap (fun p => p.error)).map
                (fun e => e ^ 2)).sum / st.validated_predictions.length,
          mape := roundTo 2
            (((st.validated_predictions.filterMap (fun p => p.error_pct)).map
                (fun e => |e|)).sum / st.validated_predictions.length),
          directional_accuracy := roundTo 1
            ((correctDirectionCount st.validated_predictions : ℚ) /
              st.validated_predictions.length * 100),
          interval_coverage := roundTo 1
            ((st.validated_predictions.countP
                (fun p => decide (p.within_interval = some true)) : ℚ) /
              st.validated_predictions.length * 100),
          recent_mape := roundTo 2
            ((((st.validated_predictions.filterMap (fun p => p.error_pct)).drop
                  ((st.validated_predictions.filterMap (fun p => p.error_pct)).length - 10)).map
                (fun e => |e|)).sum /
              ((st.validated_predictions.filterMap (fun p => p.error_pct)).drop
                ((st.validated_predictions.filterMap (fun p => p.error_pct)).length - 10)).length) }) :=
  accuracy_metrics_fields st hcomp

set_option maxRecDepth 10000 in
/-- C5 counterexample: a validated record with `predicted = current = 100`
and `actual = 99` — the source's up/down bucketing counts it as a correct
direction (both bucket `down`), so the reported directional accuracy is
100%, while the claim's three-valued-sign comparison
(`sign(predicted − current) = 0 ≠ sign(actual − current) = −1`) counts it
wrong, giving 0%. -/
theorem directional_accuracy_sign_counterexample :
    ((get_accuracy_metrics tieState).metrics.getD
      fallbackMetricValues).directional_accuracy = 100 ∧
    signCorrectCount tieState.validated_predictions = 0 ∧
    (signCorrectCount tieState.validated_predictions : ℚ) /
      tieState.validated_predictions.length * 100 = 0 := by
  refine ⟨?_, ?_, ?_⟩
  · have hm := (accuracy_metrics_fields tieState
      (by intro r hr
          rcases List.mem_cons.mp hr with h | h
          · rw [h]; exact ⟨rfl, rfl, rfl⟩
          · cases h)).2 (by simp [tieState])
    rw [hm]
    have hcd : correctDirectionCount tieState.validated_predictions = 1 := by
      norm_num [correctDirectionCount, tieState, tieRec, List.countP_cons, List.countP_nil]
    rw [Option.getD_some]
    show roundTo 1 ((correctDirectionCount tieState.validated_predictions : ℚ) /
      tieState.validated_predictions.length * 100) = 100
    rw [hcd]
    norm_num [tieState, roundTo, rhe, Int.fract]
  · norm_num [signCorrectCount, tieState, tieRec, sgnQ, List.countP_cons, List.countP_nil]
  · norm_num [signCorrectCount, tieState, tieRec, sgnQ, List.countP_cons, List.countP_nil]

/-- C9: for every measurement sequence replayed through the estimator,
`predict(steps)` leaves the estimator's internal state untouched, and an
immediately repeated call with the same `steps` returns the identical
(price, variance) projection — hence the identical (price, std). Modelled
from the spec: the `KalmanFilter` class is absent from the src snapshot. -/
theorem kalman_predict_readonly (ms : List ℚ) (steps : ℕ) :
    ((replayKalman ms).predictRun steps).2 = replayKalman ms ∧
    (((replayKalman ms).predictRun steps).2.predictRun steps).1 =
      ((replayKalman ms).predictRun steps).1 := by
  have hstate : ∀ (s : KalmanFilter) (k : ℕ), (s.predictRun k).2 = s := by
    intro s k
    unfold KalmanFilter.predictRun
    split_ifs <;> rfl
  exact ⟨hstate _ _, by rw [hstate]⟩

theorem roundTo_min_median_max (P : List ℚ) (hne : P ≠ []) :
    roundTo 2 (listMin P) ≤ roundTo 2 (medianQ P) ∧
    roundTo 2 (medianQ P) ≤ roundTo 2 (listMax P) :=
  ⟨roundTo_mono 2 (medianQ_bounds hne).1, roundTo_mono 2 (medianQ_bounds hne).2⟩

/-- C10: whenever `GGALForecaster.ensemble_forecast` returns a result, the
reported `prediction` (the rounded median of the component predictions)
lies between the reported `min_prediction` and `max_prediction`: the
median is bounded by the minimum and maximum, and rounding preserves
order. -/
theorem ensemble_prediction_between_bounds (ms : ℕ) (h : List ℚ) (hor : ℚ)
    (f : EnsembleOut) (hf : ensemble_forecast ms h hor = some f) :
    f.min_prediction ≤ f.prediction ∧ f.prediction ≤ f.max_prediction := by
  unfold ensemble_forecast at hf
  cases hE : extract_prices ms h with
  | none => rw [hE] at hf; cases hf
  | some prices =>
    rw [hE] at hf
    simp only [] at hf
    split_ifs at hf with hemp h1 h2
    all_goals cases hf
    all_goals
      refine ⟨(roundTo_min_median_max _ ?_).1, (roundTo_min_median_max _ ?_).2⟩
    all_goals
      exact fun hEq => hemp (by rw [hEq]; rfl)

set_option maxRecDepth 20000 in
theorem linHist_extract : extract_prices 10 linHistC7 = some linHistC7 := by
  norm_num [extract_prices, linHistC7]

set_option maxRecDepth 20000 in
theorem linHist_simple_ma : predict_simple_ma 10 linHistC7 5 =
    some { method := "simple_ma", prediction := 5129/100, current_price := 2557/50,
           horizon_minutes := 5, confidence := "low" } := by
  norm_num [predict_simple_ma, extract_prices, linHistC7, takeLast, meanQ, lastD,
    roundTo, rhe, Int.fract]

set_option maxRecDepth 20000 in
theorem linHist_exp_smoothing : predict_exponential_smoothing 10 linHistC7 5 (3/10) =
    some { method := "exponential_smoothing", prediction := 1286/25,
           current_price := 2557/50, horizon_minutes := 5, confidence := "medium" } := by
  norm_num [predict_exponential_smoothing, extract_prices, linHistC7, lastD, roundTo,
    rhe, Int.fract]

set_option maxRecDepth 20000 in
theorem linHist_linreg : predict_linear_regression 10 linHistC7 5 =
    some { method := "linear_regression", prediction := 103/2, current_price := 2557/50,
           horizon_minutes := 5, confidence := "high" } := by
  norm_num [predict_linear_regression, extract_prices, linHistC7, takeLast, meanQ, lastD,
    roundTo, rhe, Int.fract, List.range, List.range.loop]

set_option maxRecDepth 20000 in
theorem linHist_momentum : predict_momentum_based 10 linHistC7 5 =
    some { method := "momentum", prediction := 2569/50, current_price := 2557/50,
           horizon_minutes := 5, confidence := "medium" } := by
  norm_num [predict_momentum_based, extract_prices, linHistC7, lastD, negIdx, roundTo,
    rhe, Int.fract]

set_option maxRecDepth 20000 in
theorem linHist_mean_reversion : predict_mean_reversion 10 linHistC7 5 =
    some { method := "mean_reversion", prediction := 5097/100, current_price := 2557/50,
           horizon_minutes := 5, confidence := "medium" } := by
  norm_num [predict_mean_reversion, extract_prices, linHistC7, takeLast, meanQ, lastD,
    roundTo, rhe, Int.fract]

set_option maxRecDepth 20000 in
theorem linHist_indicators : calculate_technical_indicators linHistC7 5 = linIndicators := by
  norm_num [calculate_technical_indicators, linHistC7, linIndicators, takeLast,
    meanQ, lastD, negIdx, exponential_moving_average, calculate_rsi, diffs]

set_option maxRecDepth 20000 in
theorem linHist_lastD : lastD linHistC7 = 2557/50 := by
  norm_num [lastD, linHistC7]

set_option maxRecDepth 20000 in
theorem linHist_ensemble : ensemble_forecast 10 linHistC7 5 = some linEnsOut := by
  rw [ensemble_forecast, linHist_extract]
  norm_num [linHist_simple_ma, linHist_exp_smoothing, linHist_linreg, linHist_momentum,
    linHist_mean_reversion, linHist_indicators, linHist_lastD, linEnsOut,
    Option.map_some', List.filterMap_cons, List.filterMap_nil, medianQ, sortQ,
    insertSorted, listMin, listMax, varianceQ, meanQ, roundTo, rhe, Int.fract]

set_option maxRecDepth 20000 in
theorem linHist_length : linHistC7.length = 20 := by
  norm_num [linHistC7]

set_option maxRecDepth 20000 in
theorem linHist_signal : ggalGenerateTradingSignal 10 linHistC7 =
    { signal := "HOLD", confidence := "medium", price_change_forecast := some (47/100),
      current_price := some (2557/50), predicted_price := some (2569/50) } := by
  rw [ggalGenerateTradingSignal, linHist_extract]
  norm_num [linHist_length, linHist_ensemble, linEnsOut, linIndicators, ggalSignalCore,
    roundTo, rhe, Int.fract]
  exact fun h => absurd h (by decide)

/-- C7 counterexample: on `linHistC7` the GGAL forecaster reports a
forecast change of +0.47% (above the +0.3% threshold) with medium
confidence, yet its trading signal is HOLD, not BUY — the GGAL generator
uses ±0.5% thresholds, ignores the confidence category, and applies RSI
and momentum overrides (here RSI = 100 flips HOLD to SELL and the positive
momentum vetoes SELL back to HOLD). -/
theorem ggal_signal_threshold_counterexample :
    (ggalGenerateTradingSignal 10 linHistC7).signal = "HOLD" ∧
    (ggalGenerateTradingSignal 10 linHistC7).confidence = "medium" ∧
    (ggalGenerateTradingSignal 10 linHistC7).price_change_forecast = some (47/100) ∧
    ((47 : ℚ)/100 > 3/10) :=
  ⟨by rw [linHist_signal], by rw [linHist_signal], by rw [linHist_signal], by norm_num⟩

set_option maxRecDepth 20000 in
theorem flat_extract : extract_prices 10 tenFifty = some tenFifty := by
  norm_num [extract_prices, tenFifty]

set_option maxRecDepth 20000 in
theorem flat_simple_ma : predict_simple_ma 10 tenFifty 5 =
    some { method := "simple_ma", prediction := 50, current_price := 50,
           horizon_minutes := 5, confidence := "low" } := by
  norm_num [predict_simple_ma, extract_prices, tenFifty, takeLast, meanQ, lastD,
    roundTo, rhe, Int.fract]

set_option maxRecDepth 20000 in
theorem flat_exp_smoothing : predict_exponential_smoothing 10 tenFifty 5 (3/10) =
    some { method := "exponential_smoothing", prediction := 50, current_price := 50,
           horizon_minutes := 5, confidence := "medium" } := by
  norm_num [predict_exponential_smoothing, extract_prices, tenFifty, lastD, roundTo,
    rhe, Int.fract]

set_option maxRecDepth 20000 in
theorem flat_linreg : predict_linear_regression 10 tenFifty 5 =
    some { method := "linear_regression", prediction := 50, current_price := 50,
           horizon_minutes := 5, confidence := "low" } := by
  norm_num [predict_linear_regression, extract_prices, tenFifty, takeLast, meanQ, lastD,
    roundTo, rhe, Int.fract, List.range, List.range.loop]

set_option maxRecDepth 20000 in
theorem flat_momentum : predict_momentum_based 10 tenFifty 5 =
    some { method := "momentum", prediction := 50, current_price := 50,
           horizon_minutes := 5, confidence := "medium" } := by
  norm_num [predict_momentum_based, extract_prices, tenFifty, lastD, negIdx, roundTo,
    rhe, Int.fract]

set_option maxRecDepth 20000 in
theorem flat_mean_reversion : predict_mean_reversion 10 tenFifty 5 =
    some { method := "mean_reversion", prediction := 50, current_price := 50,
           horizon_minutes := 5, confidence := "medium" } := by
  norm_num [predict_mean_reversion, extract_prices, tenFifty, takeLast, meanQ, lastD,
    roundTo, rhe, Int.fract]

set_option maxRecDepth 20000 in
theorem flat_indicators_eval : calculate_technical_indicators tenFifty 5 = flatIndicators := by
  norm_num [calculate_technical_indicators, tenFifty, flatIndicators, takeLast,
    meanQ, lastD, negIdx, exponential_moving_average, calculate_rsi, diffs]

set_option maxRecDepth 20000 in
theorem flat_lastD : lastD tenFifty = 50 := by
  norm_num [lastD, tenFifty]

set_option maxRecDepth 20000 in
theorem flat_ensemble : ensemble_forecast 10 tenFifty 5 = some flatEnsOut := by
  rw [ensemble_forecast, flat_extract]
  norm_num [flat_simple_ma, flat_exp_smoothing, flat_linreg, flat_momentum,
    flat_mean_reversion, flat_indicators_eval, flat_lastD, flatEnsOut,
    Option.map_some', List.filterMap_cons, List.filterMap_nil, medianQ, sortQ,
    insertSorted, listMin, listMax, varianceQ, meanQ, roundTo, rhe, Int.fract]

/-- C10 witness: on the flat history the ensemble forecast exists and its
prediction sits between the reported minimum and maximum. -/
theorem ensemble_prediction_between_bounds_witness :
    ensemble_forecast 10 tenFifty 5 = some flatEnsOut ∧
    flatEnsOut.min_prediction ≤ flatEnsOut.prediction ∧
    flatEnsOut.prediction ≤ flatEnsOut.max_prediction :=
  ⟨flat_ensemble,
    (ensemble_prediction_between_bounds 10 tenFifty 5 flatEnsOut flat_ensemble).1,
    (ensemble_prediction_between_bounds 10 tenFifty 5 flatEnsOut flat_ensemble).2⟩

/-- C7 witness: concrete instances of the three characterized actions. -/
theorem signalAction_characterization_witness :
    signalAction 1 "high" = "BUY" ∧
    signalAction (-1) "medium" = "SELL" ∧
    signalAction 1 "low" = "HOLD" :=
  ⟨((signalAction_characterization 1 "high").1).mpr ⟨by norm_num, Or.inl rfl⟩,
   ((signalAction_characterization (-1) "medium").2.1).mpr ⟨by norm_num, Or.inr rfl⟩,
   ((signalAction_characterization 1 "low").2.2).mpr
     ⟨fun hc => absurd hc.2 (by rintro (h | h) <;> exact absurd h (by decide)),
      fun hc => absurd hc.2 (by rintro (h | h) <;> exact absurd h (by decide))⟩⟩

/-- C1 witness: validating `pendingState` against `histW` at time 400 marks
the record validated with the matched actual price and returns the newly
validated count. -/
theorem validate_predictions_spec_witness :
    ((validate_predictions pendingState histW 400).2.predictions.getD 0
      defaultPredRec).validated = true ∧
    ((validate_predictions pendingState histW 400).2.predictions.getD 0
      defaultPredRec).actual_price = some 102 ∧
    (validate_predictions pendingState histW 400).1 =
      countValidated (validate_predictions pendingState histW 400).2.predictions -
        countValidated pendingState.predictions := by
  have h := validate_predictions_spec pendingState histW 400 0 102
    (by norm_num [pendingState])
    (by norm_num [pendingState, mkPredictionRecord])
    (by norm_num [pendingState, mkPredictionRecord, targetTime])
    (by norm_num [pendingState, mkPredictionRecord, targetTime, findClosestPrice,
      buildDict, histW, dictInsert, List.find?])
    (by norm_num [pendingState])
    (by decide)
  exact ⟨h.1, h.2.1, h.2.2.2.2.2.2⟩

/-- C8 witness: the validated record of `validatedState` and the pending,
never-matched record of `pendingState` are untouched by the calls in
`noMatchCalls`, and the outstanding buffer keeps its length. -/
theorem prediction_records_immutable_witness :
    (foldValidate validatedState noMatchCalls).predictions.getD 0 defaultPredRec =
      validatedState.predictions.getD 0 defaultPredRec ∧
    (foldValidate pendingState noMatchCalls).predictions.getD 0 defaultPredRec =
      pendingState.predictions.getD 0 defaultPredRec ∧
    (foldValidate pendingState noMatchCalls).predictions.length =
      pendingState.predictions.length := by
  refine ⟨(prediction_records_immutable validatedState noMatchCalls 0).2.1 ?_,
    (prediction_records_immutable pendingState noMatchCalls 0).2.2 ?_,
    (prediction_records_immutable pendingState noMatchCalls 0).1⟩
  · rfl
  · intro c hc
    rcases List.mem_cons.mp hc with h | h
    · rw [h]
      rfl
    · rcases List.mem_cons.mp h with h2 | h2
      · rw [h2]
        norm_num [pendingState, mkPredictionRecord, targetTime, findClosestPrice,
          buildDict, dictInsert, List.find?]
      · cases h2

/-- C5 witness: the field formulas instantiated on the concrete one-record
state `tieState`, with the completeness hypotheses discharged. -/
theorem get_accuracy_metrics_spec_witness :
    (get_accuracy_metrics tieState).metrics = some
      { mae := roundTo 3
          (((tieState.validated_predictions.filterMap (fun p => p.error)).map
              (fun e => |e|)).sum / tieState.validated_predictions.length),
        rmse_sq :=
          ((tieState.validated_predictions.filterMap (fun p => p.error)).map
              (fun e => e ^ 2)).sum / tieState.validated_predictions.length,
        mape := roundTo 2
          (((tieState.validated_predictions.filterMap (fun p => p.error_pct)).map
              (fun e => |e|)).sum / tieState.validated_predictions.length),
        directional_accuracy := roundTo 1
          ((correctDirectionCount tieState.validated_predictions : ℚ) /
            tieState.validated_predictions.length * 100),
        interval_coverage := roundTo 1
          ((tieState.validated_predictions.countP
              (fun p => decide (p.within_interval = some true)) : ℚ) /
            tieState.validated_predictions.length * 100),
        recent_mape := roundTo 2
          ((((tieState.validated_predictions.filterMap (fun p => p.error_pct)).drop
                ((tieState.validated_predictions.filterMap (fun p => p.error_pct)).length - 10)).map
              (fun e => |e|)).sum /
            ((tieState.validated_predictions.filterMap (fun p => p.error_pct)).drop
              ((tieState.validated_predictions.filterMap (fun p => p.error_pct)).length - 10)).length) } :=
  (get_accuracy_metrics_spec tieState
    (by intro r hr
        rcases List.mem_cons.mp hr with h | h
        · rw [h]; exact ⟨rfl, rfl, rfl⟩
        · cases h)).2 (by simp [tieState])

end MonitorGGAL
